import Mathlib

/-! InputHooker.cpp: input interception core

A shallow embedding of `Cameras/Hitman2016/InjectableGenericCameraSystem/InputHooker.cpp`.

* Pointers are addresses (`Nat`, `0` is `nullptr`); memory is a total map from addresses to
  records, so `p->f` is a lookup.  The null tests written in the source are kept as they are.
* Everything the file reaches outside itself (the saved originals, `IsCameraEnabled`,
  `g_inputBlocked`, `g_gamePad->getState()`, `GetRawInputData`, `operator new`, MinHook) is a
  field of an environment record: the functions below are defined for every environment.
* Every call a function makes is appended to a call log carried by the world, so that the order
  and the number of calls can be stated.
* The `#error CONTINUE HERE` directive inside the raw-input branch guards an empty block (the
  call below it is commented out); the block is embedded as the no-op it is.
-/

namespace InputHooker

/-! ## Platform constants (winuser.h, MinHook.h) -/

def WM_NULL : Nat := 0x0000
def WM_MOUSEACTIVATE : Nat := 0x0021
def WM_NCHITTEST : Nat := 0x0084
def WM_NCMOUSEMOVE : Nat := 0x00A0
def WM_NCLBUTTONDOWN : Nat := 0x00A1
def WM_NCLBUTTONUP : Nat := 0x00A2
def WM_NCLBUTTONDBLCLK : Nat := 0x00A3
def WM_NCRBUTTONDOWN : Nat := 0x00A4
def WM_NCRBUTTONUP : Nat := 0x00A5
def WM_NCRBUTTONDBLCLK : Nat := 0x00A6
def WM_NCMBUTTONDOWN : Nat := 0x00A7
def WM_NCMBUTTONUP : Nat := 0x00A8
def WM_NCMBUTTONDBLCLK : Nat := 0x00A9
def WM_NCXBUTTONDOWN : Nat := 0x00AB
def WM_NCXBUTTONUP : Nat := 0x00AC
def WM_NCXBUTTONDBLCLK : Nat := 0x00AD
def WM_INPUT : Nat := 0x00FF
def WM_KEYDOWN : Nat := 0x0100
def WM_KEYUP : Nat := 0x0101
def WM_CHAR : Nat := 0x0102
def WM_SYSKEYDOWN : Nat := 0x0104
def WM_SYSKEYUP : Nat := 0x0105
def WM_MOUSEMOVE : Nat := 0x0200
def WM_LBUTTONDOWN : Nat := 0x0201
def WM_LBUTTONUP : Nat := 0x0202
def WM_LBUTTONDBLCLK : Nat := 0x0203
def WM_RBUTTONDOWN : Nat := 0x0204
def WM_RBUTTONUP : Nat := 0x0205
def WM_RBUTTONDBLCLK : Nat := 0x0206
def WM_MBUTTONDOWN : Nat := 0x0207
def WM_MBUTTONUP : Nat := 0x0208
def WM_MBUTTONDBLCLK : Nat := 0x0209
def WM_MOUSEWHEEL : Nat := 0x020A
def WM_XBUTTONDOWN : Nat := 0x020B
def WM_XBUTTONUP : Nat := 0x020C
def WM_XBUTTONDBLCLK : Nat := 0x020D
def WM_MOUSEHWHEEL : Nat := 0x020E
def WM_CAPTURECHANGED : Nat := 0x0215
def WM_NCMOUSEHOVER : Nat := 0x02A0
def WM_MOUSEHOVER : Nat := 0x02A1
def WM_NCMOUSELEAVE : Nat := 0x02A2
def WM_MOUSELEAVE : Nat := 0x02A3

def PM_NOREMOVE : Nat := 0x0000
def PM_REMOVE : Nat := 0x0001
def PM_NOYIELD : Nat := 0x0002

def RIM_TYPEMOUSE : Nat := 0

def TRUE : Int := 1
def FALSE : Int := 0

def MH_OK : Nat := 0

/-! ## Data model -/

/-- The `POINT` of windef.h. -/
structure POINT where
  x : Int
  y : Int
deriving DecidableEq, Repr

/-- The `MSG` of winuser.h; `hwnd = 0` is the null window. -/
structure MSG where
  hwnd : Nat
  message : Nat
  wParam : Nat
  lParam : Int
  time : Nat
  pt : POINT
deriving DecidableEq, Repr

/-- The `XINPUT_GAMEPAD` of XInput.h. -/
structure XINPUT_GAMEPAD where
  wButtons : Nat
  bLeftTrigger : Nat
  bRightTrigger : Nat
  sThumbLX : Int
  sThumbLY : Int
  sThumbRX : Int
  sThumbRY : Int
deriving DecidableEq, Repr

/-- The `XINPUT_STATE` of XInput.h. -/
structure XINPUT_STATE where
  dwPacketNumber : Nat
  Gamepad : XINPUT_GAMEPAD
deriving DecidableEq, Repr

/-- Addressable memory: the `MSG` and the `XINPUT_STATE` stored at each address. -/
structure Memory where
  msg : Nat → MSG
  pad : Nat → XINPUT_STATE

/-- One entry of the call log. -/
inductive Call where
  | hookedXInputGetState (dwUserIndex pState : Nat)
  | hookedGetMessageA (lpMsg hWnd wMsgFilterMin wMsgFilterMax : Nat)
  | hookedGetMessageW (lpMsg hWnd wMsgFilterMin wMsgFilterMax : Nat)
  | hookedPeekMessageA (lpMsg hWnd wMsgFilterMin wMsgFilterMax wRemoveMsg : Nat)
  | hookedPeekMessageW (lpMsg hWnd wMsgFilterMin wMsgFilterMax wRemoveMsg : Nat)
  | getState
  | ZeroMemory (dest : Nat)
  | ProcessMessage (lpMsg : Nat) (removeIfRequired : Bool)
  | HandleMessage (lpMsg : Nat)
  | IsCameraEnabled
  | GetRawInputData (hRawInput : Int) (pDataIsNull : Bool)
deriving DecidableEq, Repr

/-- A log entry that is a call through one of the five saved original pointers. -/
def Call.isHooked : Call → Bool
  | .hookedXInputGetState _ _ => true
  | .hookedGetMessageA _ _ _ _ => true
  | .hookedGetMessageW _ _ _ _ => true
  | .hookedPeekMessageA _ _ _ _ _ => true
  | .hookedPeekMessageW _ _ _ _ _ => true
  | _ => false

/-- A log entry that is a call of `GetRawInputData`. -/
def Call.isGetRawInputData : Call → Bool
  | .GetRawInputData _ _ => true
  | _ => false

/-- A log entry that is an entry into `ProcessMessage` or `HandleMessage`. -/
def Call.isPolicy : Call → Bool
  | .ProcessMessage _ _ => true
  | .HandleMessage _ => true
  | _ => false

/-- The world a function runs in: the memory and the calls made so far. -/
structure World where
  mem : Memory
  log : List Call

/-- Append a call to the log. -/
def World.call (w : World) (c : Call) : World :=
  { w with log := w.log ++ [c] }

/-- What the file reads from its collaborators during one call.

* `g_inputBlocked`: the extern flag; `IsCameraEnabled`: the result of `IsCameraEnabled()`;
  `g_gamePad_getState`: the pointer returned by `g_gamePad->getState()`.
* `hooked...`: the saved originals; each takes the arguments and the memory and yields its result
  and the memory it leaves.
* `GetRawInputData_size h`: the value left in `iBuffer` by the size query (`pData = NULL`).
* `GetRawInputData_data h n`: for the fetch with `iBuffer = n`, the returned `readSize`, the value
  left in `iBuffer`, and `header.dwType` of the fetched block.
* `new_isNull n`: whether `new BYTE[n]` yields `NULL`. -/
structure Env where
  g_inputBlocked : Bool
  IsCameraEnabled : Bool
  g_gamePad_getState : Nat
  hookedXInputGetState : Nat → Nat → Memory → Nat × Memory
  hookedGetMessageA : Nat → Nat → Nat → Nat → Memory → Int × Memory
  hookedGetMessageW : Nat → Nat → Nat → Nat → Memory → Int × Memory
  hookedPeekMessageA : Nat → Nat → Nat → Nat → Nat → Memory → Int × Memory
  hookedPeekMessageW : Nat → Nat → Nat → Nat → Nat → Memory → Int × Memory
  GetRawInputData_size : Int → Nat
  GetRawInputData_data : Int → Nat → Nat × Nat × Nat
  new_isNull : Nat → Bool

/-! ## HandleMessage and ProcessMessage -/

/-- The case labels of the second group of `HandleMessage`s switch, in source order. -/
def caseLabels : List Nat :=
  [ WM_KEYDOWN, WM_KEYUP, WM_CAPTURECHANGED, WM_LBUTTONDBLCLK, WM_LBUTTONDOWN,
    WM_MBUTTONDBLCLK, WM_MBUTTONDOWN, WM_MBUTTONUP, WM_MOUSEACTIVATE, WM_MOUSEHOVER,
    WM_MOUSEHWHEEL, WM_MOUSEMOVE, WM_MOUSELEAVE, WM_MOUSEWHEEL, WM_NCHITTEST,
    WM_NCLBUTTONDBLCLK, WM_NCLBUTTONDOWN, WM_NCLBUTTONUP, WM_NCMBUTTONDBLCLK,
    WM_NCMBUTTONDOWN, WM_NCMBUTTONUP, WM_NCMOUSEHOVER, WM_NCMOUSELEAVE, WM_NCMOUSEMOVE,
    WM_NCRBUTTONDBLCLK, WM_NCRBUTTONDOWN, WM_NCRBUTTONUP, WM_NCXBUTTONDBLCLK,
    WM_NCXBUTTONDOWN, WM_NCXBUTTONUP, WM_RBUTTONDBLCLK, WM_RBUTTONDOWN, WM_RBUTTONUP,
    WM_XBUTTONDBLCLK, WM_XBUTTONDOWN, WM_XBUTTONUP, WM_LBUTTONUP ]

/-- Embeds `bool HandleMessage(LPMSG lpMsg)`: the result and the world afterwards. -/
def HandleMessage (env : Env) (lpMsg : Nat) (w : World) : Bool × World :=
  let w0 := w.call (.HandleMessage lpMsg)
  -- lpMsg == nullptr || lpMsg->hwnd == nullptr || !IsCameraEnabled()
  if lpMsg = 0 then (false, w0)
  else if (w0.mem.msg lpMsg).hwnd = 0 then (false, w0)
  else
    let w1 := w0.call .IsCameraEnabled
    if env.IsCameraEnabled = false then (false, w1)
    else
      -- switch (lpMsg->message)
      if (w1.mem.msg lpMsg).message = WM_INPUT then
        let hRawInput := (w1.mem.msg lpMsg).lParam
        -- the size query
        let w2 := w1.call (.GetRawInputData hRawInput true)
        let iBuffer := env.GetRawInputData_size hRawInput
        -- lpb = new BYTE[iBuffer]; if (lpb == NULL) return 0;
        if env.new_isNull iBuffer = true then (false, w2)
        else
          -- the fetch
          let w3 := w2.call (.GetRawInputData hRawInput false)
          let fetched := env.GetRawInputData_data hRawInput iBuffer
          let readSize := fetched.1
          let iBufferAfter := fetched.2.1
          let dwType := fetched.2.2
          -- if (readSize == iBuffer) { if (dwType == RIM_TYPEMOUSE) { } }: the block is empty
          let w4 :=
            if readSize = iBufferAfter then (if dwType = RIM_TYPEMOUSE then w3 else w3) else w3
          -- delete lpb; toReturn = true;
          (true, w4)
      else if (w1.mem.msg lpMsg).message ∈ caseLabels then (true, w1)
      else (false, w1)

/-- The assignment `lpMsg->message = v`. -/
def World.setMessage (w : World) (lpMsg : Nat) (v : Nat) : World :=
  { w with mem := { w.mem with
      msg := Function.update w.mem.msg lpMsg { w.mem.msg lpMsg with message := v } } }

/-- Embeds `void ProcessMessage(LPMSG lpMsg, bool removeIfRequired)`. -/
def ProcessMessage (env : Env) (lpMsg : Nat) (removeIfRequired : Bool) (w : World) : World :=
  let w0 := w.call (.ProcessMessage lpMsg removeIfRequired)
  -- lpMsg->hwnd != nullptr && removeIfRequired && HandleMessage(lpMsg)
  if (w0.mem.msg lpMsg).hwnd = 0 then w0
  else if removeIfRequired = false then w0
  else
    let handled := HandleMessage env lpMsg w0
    if handled.1 = true then
      if env.g_inputBlocked = true then handled.2.setMessage lpMsg WM_NULL
      else handled.2
    else handled.2

/-! ## The detours -/

/-- Embeds `ZeroMemory(pState, sizeof(XINPUT_STATE))`. -/
def World.zeroState (w : World) (pState : Nat) : World :=
  { w with mem := { w.mem with
      pad := Function.update w.mem.pad pState ⟨0, ⟨0, 0, 0, 0, 0, 0, 0⟩⟩ } }

/-- Embeds `DWORD WINAPI DetourXInputGetState(DWORD dwUserIndex, XINPUT_STATE* pState)`. -/
def DetourXInputGetState (env : Env) (dwUserIndex pState : Nat) (w : World) : Nat × World :=
  let w0 := w.call (.hookedXInputGetState dwUserIndex pState)
  let orig := env.hookedXInputGetState dwUserIndex pState w0.mem
  let toReturn := orig.1
  let w1 : World := { w0 with mem := orig.2 }
  let w2 := w1.call .getState
  if pState ≠ env.g_gamePad_getState then
    if env.g_inputBlocked = true then
      (toReturn, (w2.call (.ZeroMemory pState)).zeroState pState)
    else (toReturn, w2)
  else (toReturn, w2)

/-- Embeds `BOOL WINAPI DetourGetMessageA(LPMSG, HWND, UINT, UINT)`. -/
def DetourGetMessageA (env : Env) (lpMsg hWnd wMsgFilterMin wMsgFilterMax : Nat) (w : World) :
    Int × World :=
  let w0 := w.call (.hookedGetMessageA lpMsg hWnd wMsgFilterMin wMsgFilterMax)
  let orig := env.hookedGetMessageA lpMsg hWnd wMsgFilterMin wMsgFilterMax w0.mem
  let w1 : World := { w0 with mem := orig.2 }
  if orig.1 = 0 then (FALSE, w1)
  else (TRUE, ProcessMessage env lpMsg true w1)

/-- Embeds `BOOL WINAPI DetourGetMessageW(LPMSG, HWND, UINT, UINT)`. -/
def DetourGetMessageW (env : Env) (lpMsg hWnd wMsgFilterMin wMsgFilterMax : Nat) (w : World) :
    Int × World :=
  let w0 := w.call (.hookedGetMessageW lpMsg hWnd wMsgFilterMin wMsgFilterMax)
  let orig := env.hookedGetMessageW lpMsg hWnd wMsgFilterMin wMsgFilterMax w0.mem
  let w1 : World := { w0 with mem := orig.2 }
  if orig.1 = 0 then (FALSE, w1)
  else (TRUE, ProcessMessage env lpMsg true w1)

/-- Embeds `BOOL WINAPI DetourPeekMessageA(LPMSG, HWND, UINT, UINT, UINT)`; the `bool` argument
of `ProcessMessage` is the conversion of `wRemoveMsg & PM_REMOVE`. -/
def DetourPeekMessageA (env : Env) (lpMsg hWnd wMsgFilterMin wMsgFilterMax wRemoveMsg : Nat)
    (w : World) : Int × World :=
  let w0 := w.call (.hookedPeekMessageA lpMsg hWnd wMsgFilterMin wMsgFilterMax wRemoveMsg)
  let orig := env.hookedPeekMessageA lpMsg hWnd wMsgFilterMin wMsgFilterMax wRemoveMsg w0.mem
  let w1 : World := { w0 with mem := orig.2 }
  if orig.1 = 0 then (FALSE, w1)
  else (TRUE, ProcessMessage env lpMsg ((wRemoveMsg &&& PM_REMOVE) != 0) w1)

/-- Embeds `BOOL WINAPI DetourPeekMessageW(LPMSG, HWND, UINT, UINT, UINT)`. -/
def DetourPeekMessageW (env : Env) (lpMsg hWnd wMsgFilterMin wMsgFilterMax wRemoveMsg : Nat)
    (w : World) : Int × World :=
  let w0 := w.call (.hookedPeekMessageW lpMsg hWnd wMsgFilterMin wMsgFilterMax wRemoveMsg)
  let orig := env.hookedPeekMessageW lpMsg hWnd wMsgFilterMin wMsgFilterMax wRemoveMsg w0.mem
  let w1 : World := { w0 with mem := orig.2 }
  if orig.1 = 0 then (FALSE, w1)
  else (TRUE, ProcessMessage env lpMsg ((wRemoveMsg &&& PM_REMOVE) != 0) w1)

/-! ## Hook installation -/

/-- The detours defined in the file. -/
inductive Detour where
  | DetourXInputGetState
  | DetourGetMessageA
  | DetourGetMessageW
  | DetourPeekMessageA
  | DetourPeekMessageW
deriving DecidableEq, Repr

/-- A hook MinHook holds: the target, the detour, and whether it is enabled. -/
structure Hook where
  pszModule : String
  pszProcName : String
  pDetour : Detour
  isEnabled : Bool
deriving DecidableEq, Repr

/-- What `SetInputHooks` acts on: MinHook's table of created hooks and the two streams of
`g_consoleWrapper`. -/
structure Installation where
  hooks : List Hook
  errors : List String
  lines : List String
deriving DecidableEq, Repr

/-- What MinHook answers and how the file was built: the status of `MH_CreateHookApi` for a module
and export, the status of `MH_EnableHook(MH_ALL_HOOKS)`, and whether `_DEBUG` is defined. -/
structure MinHookEnv where
  MH_CreateHookApi : String → String → Nat
  MH_EnableHook : Nat
  DEBUG : Bool

/-- Embeds `MH_CreateHookApiEx(pszModule, pszProcName, pDetour, ppOriginal)`: on `MH_OK` the hook
is in the table, created and not yet enabled. -/
def MH_CreateHookApiEx (mh : MinHookEnv) (pszModule pszProcName : String) (pDetour : Detour)
    (s : Installation) : Nat × Installation :=
  let status := mh.MH_CreateHookApi pszModule pszProcName
  if status = MH_OK then
    (status, { s with hooks := s.hooks ++ [⟨pszModule, pszProcName, pDetour, false⟩] })
  else (status, s)

/-- Embeds `MH_EnableHook(MH_ALL_HOOKS)`: on `MH_OK` every created hook is enabled. -/
def MH_EnableHook_ALL_HOOKS (mh : MinHookEnv) (s : Installation) : Nat × Installation :=
  if mh.MH_EnableHook = MH_OK then
    (mh.MH_EnableHook, { s with hooks := s.hooks.map fun h => { h with isEnabled := true } })
  else (mh.MH_EnableHook, s)

/-- Embeds `g_consoleWrapper->WriteError(text)`. -/
def Installation.WriteError (s : Installation) (text : String) : Installation :=
  { s with errors := s.errors ++ [text] }

/-- Embeds `g_consoleWrapper->WriteLine(text)`. -/
def Installation.WriteLine (s : Installation) (text : String) : Installation :=
  { s with lines := s.lines ++ [text] }

/-- Embeds `void SetInputHooks()`; the result of the leading `MH_Initialize()` is not looked at. -/
def SetInputHooks (mh : MinHookEnv) (s : Installation) : Installation :=
  let created := MH_CreateHookApiEx mh "xinput9_1_0" "XInputGetState" .DetourXInputGetState s
  let s1 := if created.1 ≠ MH_OK then created.2.WriteError "Hooking XInput 9_1_0 failed!"
            else created.2
  let s2 := if mh.DEBUG = true then s1.WriteLine "Hook set to XInputSetState" else s1
  -- Enable all hooks
  let enabled := MH_EnableHook_ALL_HOOKS mh s2
  if enabled.1 = MH_OK then
    if mh.DEBUG = true then enabled.2.WriteLine "All hooks enabled" else enabled.2
  else enabled.2.WriteError "Enabling hooks failed"

/-! ## Concrete inputs used to exercise the definitions -/

/-- A key-down event (`VK_A`) addressed to window `0x5A0`. -/
def keyDownEvent : MSG := ⟨0x5A0, WM_KEYDOWN, 0x41, 0x1E0001, 123456, ⟨640, 360⟩⟩

/-- A mouse-move event addressed to window `0x5A0`. -/
def mouseMoveEvent : MSG := ⟨0x5A0, WM_MOUSEMOVE, 0, 0x00C80064, 123470, ⟨100, 200⟩⟩

/-- A character event addressed to window `0x5A0`. -/
def charEvent : MSG := ⟨0x5A0, WM_CHAR, 0x61, 0x1E0001, 123480, ⟨640, 360⟩⟩

/-- A raw-input event addressed to window `0x5A0`. -/
def rawInputEvent : MSG := ⟨0x5A0, WM_INPUT, 0, 0x2B0041, 123490, ⟨640, 360⟩⟩

/-- A non-client X-button double-click addressed to window `0x5A0`. -/
def ncxDblClkEvent : MSG := ⟨0x5A0, WM_NCXBUTTONDBLCLK, 2, 0x00C80064, 123495, ⟨100, 200⟩⟩

/-- A controller state with a button held and the left stick deflected. -/
def heldState : XINPUT_STATE := ⟨77, ⟨0x1000, 255, 0, 32767, -32768, 12, -7⟩⟩

/-- Memory holding one event at every `MSG` address and an idle controller everywhere. -/
def memWith (e : MSG) : Memory := ⟨fun _ => e, fun _ => ⟨0, ⟨0, 0, 0, 0, 0, 0, 0⟩⟩⟩

/-- A world with an empty call log. -/
def worldWith (e : MSG) : World := ⟨memWith e, []⟩

/-- An environment whose message originals store `e` at `lpMsg` and return `r`, and whose
controller original stores `heldState` at `pState` and returns `code`; the tool's own controller
buffer is at address `0x7000`. -/
def sampleEnv (blocked camera : Bool) (r : Int) (e : MSG) (code : Nat) : Env where
  g_inputBlocked := blocked
  IsCameraEnabled := camera
  g_gamePad_getState := 0x7000
  hookedXInputGetState := fun _ pState m => (code, { m with pad := Function.update m.pad pState heldState })
  hookedGetMessageA := fun lpMsg _ _ _ m => (r, { m with msg := Function.update m.msg lpMsg e })
  hookedGetMessageW := fun lpMsg _ _ _ m => (r, { m with msg := Function.update m.msg lpMsg e })
  hookedPeekMessageA := fun lpMsg _ _ _ _ m => (r, { m with msg := Function.update m.msg lpMsg e })
  hookedPeekMessageW := fun lpMsg _ _ _ _ m => (r, { m with msg := Function.update m.msg lpMsg e })
  GetRawInputData_size := fun _ => 48
  GetRawInputData_data := fun _ n => (n, n, RIM_TYPEMOUSE)
  new_isNull := fun _ => false

/-! ## Tag lists of the specification -/

/-- The tags the specification names as always hidden: key-down and key-up; press, release and
double-click of the left, middle, right and X buttons with their non-client counterparts; hover
and non-client hover; the two wheels; mouse-activate; hit-test. -/
def specAlwaysHidden : List Nat :=
  [ WM_KEYDOWN, WM_KEYUP,
    WM_LBUTTONDOWN, WM_LBUTTONUP, WM_LBUTTONDBLCLK,
    WM_MBUTTONDOWN, WM_MBUTTONUP, WM_MBUTTONDBLCLK,
    WM_RBUTTONDOWN, WM_RBUTTONUP, WM_RBUTTONDBLCLK,
    WM_XBUTTONDOWN, WM_XBUTTONUP, WM_XBUTTONDBLCLK,
    WM_NCLBUTTONDOWN, WM_NCLBUTTONUP, WM_NCLBUTTONDBLCLK,
    WM_NCMBUTTONDOWN, WM_NCMBUTTONUP, WM_NCMBUTTONDBLCLK,
    WM_NCRBUTTONDOWN, WM_NCRBUTTONUP, WM_NCRBUTTONDBLCLK,
    WM_NCXBUTTONDOWN, WM_NCXBUTTONUP, WM_NCXBUTTONDBLCLK,
    WM_MOUSEHOVER, WM_NCMOUSEHOVER,
    WM_MOUSEWHEEL, WM_MOUSEHWHEEL,
    WM_MOUSEACTIVATE,
    WM_NCHITTEST ]

/-- The five case labels of the switch that are outside `specAlwaysHidden`. -/
def movementLabels : List Nat :=
  [ WM_MOUSEMOVE, WM_NCMOUSEMOVE, WM_MOUSELEAVE, WM_NCMOUSELEAVE, WM_CAPTURECHANGED ]

/-! ## Call-log relation -/

/-- The log of `w2` is the log of `w1` followed by calls none of which goes through a saved
original. -/
def LogGrowsUnhooked (w1 w2 : World) : Prop :=
  ∃ rest, w2.log = w1.log ++ rest ∧ ∀ c ∈ rest, c.isHooked = false

/-- MinHook answers in which creating a hook for the export `GetMessageA` fails (status 1) and
everything else succeeds; a release build. -/
def getMessageAFails : MinHookEnv :=
  ⟨fun _ pszProcName => if pszProcName = "GetMessageA" then 1 else MH_OK, MH_OK, false⟩

/-- An Alt key-down (`WM_SYSKEYDOWN`, `VK_MENU`) addressed to window `0x5A0`. -/
def sysKeyDownEvent : MSG := ⟨0x5A0, WM_SYSKEYDOWN, 0x12, 0x20380001, 123500, ⟨640, 360⟩⟩

/-- A key-down posted to the thread: the window is null. -/
def threadKeyDownEvent : MSG := ⟨0, WM_KEYDOWN, 0x41, 0x1E0001, 123510, ⟨640, 360⟩⟩

/-- An event for window `0x5A0` whose tag is already `WM_NULL`. -/
def inertEvent : MSG := ⟨0x5A0, WM_NULL, 0x41, 0x1E0001, 123456, ⟨640, 360⟩⟩

/-- The environment with its five saved originals replaced and everything else kept. -/
def Env.withOriginals (env : Env)
    (x : Nat → Nat → Memory → Nat × Memory)
    (ga gw : Nat → Nat → Nat → Nat → Memory → Int × Memory)
    (pa pw : Nat → Nat → Nat → Nat → Nat → Memory → Int × Memory) : Env :=
  { env with
    hookedXInputGetState := x
    hookedGetMessageA := ga
    hookedGetMessageW := gw
    hookedPeekMessageA := pa
    hookedPeekMessageW := pw }

/-- The bookkeeping an original does on each invocation, kept at address `0x9000`: one more in
the `time` of the event there and in the `dwPacketNumber` of the controller state there. -/
def countInvocation (m : Memory) : Memory :=
  { msg := Function.update m.msg 0x9000 { m.msg 0x9000 with time := (m.msg 0x9000).time + 1 }
    pad := Function.update m.pad 0x9000
      { m.pad 0x9000 with dwPacketNumber := (m.pad 0x9000).dwPacketNumber + 1 } }

/-- An environment with camera enabled and blocking on whose originals count their invocations
with `countInvocation`, store `keyDownEvent` at `lpMsg` (`heldState` at `pState`) and return 1
(the controller original returns 0). -/
def countingEnv : Env where
  g_inputBlocked := true
  IsCameraEnabled := true
  g_gamePad_getState := 0x7000
  hookedXInputGetState := fun _ pState m =>
    (0, { countInvocation m with pad := Function.update (countInvocation m).pad pState heldState })
  hookedGetMessageA := fun lpMsg _ _ _ m =>
    (1, { countInvocation m with msg := Function.update (countInvocation m).msg lpMsg keyDownEvent })
  hookedGetMessageW := fun lpMsg _ _ _ m =>
    (1, { countInvocation m with msg := Function.update (countInvocation m).msg lpMsg keyDownEvent })
  hookedPeekMessageA := fun lpMsg _ _ _ _ m =>
    (1, { countInvocation m with msg := Function.update (countInvocation m).msg lpMsg keyDownEvent })
  hookedPeekMessageW := fun lpMsg _ _ _ _ m =>
    (1, { countInvocation m with msg := Function.update (countInvocation m).msg lpMsg keyDownEvent })
  GetRawInputData_size := fun _ => 48
  GetRawInputData_data := fun _ n => (n, n, RIM_TYPEMOUSE)
  new_isNull := fun _ => false

/-! ## Shared lemmas -/

theorem keyDown_mem_caseLabels : WM_KEYDOWN ∈ caseLabels := by decide

/-- Memory is left as it was by `HandleMessage`. -/
theorem HandleMessage_mem (env : Env) (lpMsg : Nat) (w : World) :
    (HandleMessage env lpMsg w).2.mem = w.mem := by
  unfold HandleMessage
  simp only [World.call]
  split_ifs <;> rfl

/-- The result of `HandleMessage` in closed form. -/
theorem HandleMessage_result (env : Env) (lpMsg : Nat) (w : World) :
    (HandleMessage env lpMsg w).1 =
      (decide (lpMsg ≠ 0) && decide ((w.mem.msg lpMsg).hwnd ≠ 0) && env.IsCameraEnabled &&
        (if (w.mem.msg lpMsg).message = WM_INPUT
          then !env.new_isNull (env.GetRawInputData_size (w.mem.msg lpMsg).lParam)
          else decide ((w.mem.msg lpMsg).message ∈ caseLabels))) := by
  unfold HandleMessage
  simp only [World.call]
  split_ifs <;> simp_all

/-- The memory `ProcessMessage` leaves: the event at `lpMsg` gets `WM_NULL` when the window is
non-null, the event is being removed, `HandleMessage` reports it handled and blocking is on;
otherwise memory is as before. -/
theorem ProcessMessage_mem (env : Env) (lpMsg : Nat) (removeIfRequired : Bool) (w : World) :
    (ProcessMessage env lpMsg removeIfRequired w).mem =
      if (w.mem.msg lpMsg).hwnd ≠ 0 ∧ removeIfRequired = true ∧
          (HandleMessage env lpMsg w).1 = true ∧ env.g_inputBlocked = true
      then { w.mem with
              msg := Function.update w.mem.msg lpMsg { w.mem.msg lpMsg with message := WM_NULL } }
      else w.mem := by
  have hres : ∀ c, (HandleMessage env lpMsg (w.call c)).1 = (HandleMessage env lpMsg w).1 := by
    intro c
    rw [HandleMessage_result, HandleMessage_result]
    rfl
  unfold ProcessMessage
  simp only [World.setMessage]
  split_ifs <;> simp_all [HandleMessage_mem, World.call]

theorem specAlwaysHidden_length : specAlwaysHidden.length = 32 := by decide

theorem caseLabels_length : caseLabels.length = 37 := by decide

theorem specAlwaysHidden_subset : ∀ tag ∈ specAlwaysHidden, tag ∈ caseLabels := by decide

theorem movementLabels_subset : ∀ tag ∈ movementLabels, tag ∈ caseLabels := by decide

theorem caseLabels_split :
    ∀ tag ∈ caseLabels, tag ∈ specAlwaysHidden ∨ tag ∈ movementLabels := by decide

theorem caseLabels_ne_wmInput : ∀ tag ∈ caseLabels, tag ≠ WM_INPUT := by decide

/-! ## C1 -/

/-- C1: blocking retrieval end to end.  For `DetourGetMessageA` and `DetourGetMessageW`, with the
camera enabled and `g_inputBlocked` set, when the original returns a non-zero result and leaves
at `lpMsg` an event with a non-null window and `message = WM_KEYDOWN` (whatever its `wParam`,
`lParam`, `time`, `pt`), the detour returns `TRUE` and the event handed back is the one the
original wrote with `message` replaced by `WM_NULL` and every other field as written. -/
theorem C1_blocking_retrieval_neutralizes_keydown
    (env : Env) (lpMsg hWnd wMsgFilterMin wMsgFilterMax : Nat) (w : World)
    (hptr : lpMsg ≠ 0) (hcam : env.IsCameraEnabled = true) (hblock : env.g_inputBlocked = true) :
    (∀ orig, orig = env.hookedGetMessageA lpMsg hWnd wMsgFilterMin wMsgFilterMax w.mem →
      orig.1 ≠ 0 → (orig.2.msg lpMsg).hwnd ≠ 0 → (orig.2.msg lpMsg).message = WM_KEYDOWN →
      (DetourGetMessageA env lpMsg hWnd wMsgFilterMin wMsgFilterMax w).1 = TRUE ∧
      (DetourGetMessageA env lpMsg hWnd wMsgFilterMin wMsgFilterMax w).2.mem.msg lpMsg
        = { orig.2.msg lpMsg with message := WM_NULL }) ∧
    (∀ orig, orig = env.hookedGetMessageW lpMsg hWnd wMsgFilterMin wMsgFilterMax w.mem →
      orig.1 ≠ 0 → (orig.2.msg lpMsg).hwnd ≠ 0 → (orig.2.msg lpMsg).message = WM_KEYDOWN →
      (DetourGetMessageW env lpMsg hWnd wMsgFilterMin wMsgFilterMax w).1 = TRUE ∧
      (DetourGetMessageW env lpMsg hWnd wMsgFilterMin wMsgFilterMax w).2.mem.msg lpMsg
        = { orig.2.msg lpMsg with message := WM_NULL }) := by
  constructor
  · intro orig horig hret hwnd hmsg
    subst horig
    have hh : (HandleMessage env lpMsg
        { mem := (env.hookedGetMessageA lpMsg hWnd wMsgFilterMin wMsgFilterMax w.mem).2,
          log := w.log ++ [Call.hookedGetMessageA lpMsg hWnd wMsgFilterMin wMsgFilterMax] }).1
        = true := by
      rw [HandleMessage_result]
      simp [hptr, hwnd, hcam, hmsg, keyDown_mem_caseLabels, show WM_KEYDOWN ≠ WM_INPUT by decide]
    simp [DetourGetMessageA, World.call, hret, ProcessMessage_mem, hwnd, hblock, hh]
  · intro orig horig hret hwnd hmsg
    subst horig
    have hh : (HandleMessage env lpMsg
        { mem := (env.hookedGetMessageW lpMsg hWnd wMsgFilterMin wMsgFilterMax w.mem).2,
          log := w.log ++ [Call.hookedGetMessageW lpMsg hWnd wMsgFilterMin wMsgFilterMax] }).1
        = true := by
      rw [HandleMessage_result]
      simp [hptr, hwnd, hcam, hmsg, keyDown_mem_caseLabels, show WM_KEYDOWN ≠ WM_INPUT by decide]
    simp [DetourGetMessageW, World.call, hret, ProcessMessage_mem, hwnd, hblock, hh]

/-- C1 at a concrete input: camera enabled, blocking on, the original delivers `keyDownEvent` at
address `0x1000` and returns 1. -/
theorem C1_blocking_retrieval_witness :
    ((DetourGetMessageA (sampleEnv true true 1 keyDownEvent 0) 0x1000 0 0 0
        (worldWith charEvent)).1 = 1 ∧
      (DetourGetMessageA (sampleEnv true true 1 keyDownEvent 0) 0x1000 0 0 0
        (worldWith charEvent)).2.mem.msg 0x1000
        = ⟨0x5A0, WM_NULL, 0x41, 0x1E0001, 123456, ⟨640, 360⟩⟩) ∧
    ((DetourGetMessageW (sampleEnv true true 1 keyDownEvent 0) 0x1000 0 0 0
        (worldWith charEvent)).1 = 1 ∧
      (DetourGetMessageW (sampleEnv true true 1 keyDownEvent 0) 0x1000 0 0 0
        (worldWith charEvent)).2.mem.msg 0x1000
        = ⟨0x5A0, WM_NULL, 0x41, 0x1E0001, 123456, ⟨640, 360⟩⟩) :=
  ⟨(C1_blocking_retrieval_neutralizes_keydown (sampleEnv true true 1 keyDownEvent 0) 0x1000 0 0 0
      (worldWith charEvent) (by decide) rfl rfl).1 _ rfl (by decide) (by decide) (by decide),
   (C1_blocking_retrieval_neutralizes_keydown (sampleEnv true true 1 keyDownEvent 0) 0x1000 0 0 0
      (worldWith charEvent) (by decide) rfl rfl).2 _ rfl (by decide) (by decide) (by decide)⟩

/-! ## C2 -/

/-- C2: classifier, positive half.  With the camera enabled and `lpMsg->hwnd` non-null,
`HandleMessage` returns true for each of the 32 tags the specification names as always hidden,
whatever the other fields of the event are. -/
theorem C2_always_hidden_tags_handled (env : Env) (lpMsg : Nat) (w : World)
    (hptr : lpMsg ≠ 0) (hcam : env.IsCameraEnabled = true)
    (hwnd : (w.mem.msg lpMsg).hwnd ≠ 0)
    (htag : (w.mem.msg lpMsg).message ∈ specAlwaysHidden) :
    (HandleMessage env lpMsg w).1 = true := by
  have hcase := specAlwaysHidden_subset _ htag
  have hne := caseLabels_ne_wmInput _ hcase
  rw [HandleMessage_result]
  simp [hptr, hwnd, hcam, hne, hcase]

/-- C2 at a concrete input: a non-client X-button double-click for window `0x5A0`. -/
theorem C2_always_hidden_witness :
    (HandleMessage (sampleEnv false true 1 keyDownEvent 0) 0x1000 (worldWith ncxDblClkEvent)).1
      = true :=
  C2_always_hidden_tags_handled (sampleEnv false true 1 keyDownEvent 0) 0x1000
    (worldWith ncxDblClkEvent) (by decide) rfl (by decide) (by decide)

/-! ## C3 -/

/-- C3 as stated fails: with the camera enabled and a non-null window, `HandleMessage` returns
true for `WM_MOUSEMOVE`, `WM_NCMOUSEMOVE`, `WM_MOUSELEAVE`, `WM_NCMOUSELEAVE` and
`WM_CAPTURECHANGED`, none of which is `WM_INPUT` or in the always-hidden list. -/
theorem C3_movement_tags_counterexample :
    (sampleEnv true true 1 keyDownEvent 0).IsCameraEnabled = true ∧
    mouseMoveEvent.hwnd ≠ 0 ∧
    WM_MOUSEMOVE ≠ WM_INPUT ∧ WM_MOUSEMOVE ∉ specAlwaysHidden ∧
    (HandleMessage (sampleEnv true true 1 keyDownEvent 0) 0x1000 (worldWith mouseMoveEvent)).1
      = true ∧
    (HandleMessage (sampleEnv true true 1 keyDownEvent 0) 0x1000
      (worldWith { mouseMoveEvent with message := WM_NCMOUSEMOVE })).1 = true ∧
    (HandleMessage (sampleEnv true true 1 keyDownEvent 0) 0x1000
      (worldWith { mouseMoveEvent with message := WM_MOUSELEAVE })).1 = true ∧
    (HandleMessage (sampleEnv true true 1 keyDownEvent 0) 0x1000
      (worldWith { mouseMoveEvent with message := WM_NCMOUSELEAVE })).1 = true ∧
    (HandleMessage (sampleEnv true true 1 keyDownEvent 0) 0x1000
      (worldWith { mouseMoveEvent with message := WM_CAPTURECHANGED })).1 = true := by
  decide

/-- C3, amended: with the camera enabled and `lpMsg->hwnd` non-null, for every tag that is
neither `WM_INPUT` nor one of the always-hidden tags, `HandleMessage` returns false unless the
tag is one of `WM_MOUSEMOVE`, `WM_NCMOUSEMOVE`, `WM_MOUSELEAVE`, `WM_NCMOUSELEAVE`,
`WM_CAPTURECHANGED`, and for those five it returns true. -/
theorem C3_other_tags_classified (env : Env) (lpMsg : Nat) (w : World)
    (hptr : lpMsg ≠ 0) (hcam : env.IsCameraEnabled = true)
    (hwnd : (w.mem.msg lpMsg).hwnd ≠ 0)
    (hraw : (w.mem.msg lpMsg).message ≠ WM_INPUT)
    (hspec : (w.mem.msg lpMsg).message ∉ specAlwaysHidden) :
    ((w.mem.msg lpMsg).message ∉ movementLabels → (HandleMessage env lpMsg w).1 = false) ∧
    ((w.mem.msg lpMsg).message ∈ movementLabels → (HandleMessage env lpMsg w).1 = true) := by
  rw [HandleMessage_result]
  constructor
  · intro hmove
    have hcase : (w.mem.msg lpMsg).message ∉ caseLabels := fun h =>
      (caseLabels_split _ h).elim hspec hmove
    simp [hraw, hcase]
  · intro hmove
    simp [hptr, hwnd, hcam, hraw, movementLabels_subset _ hmove]

/-- The amended C3 at concrete inputs: `WM_CHAR` is not handled, `WM_MOUSEMOVE` is. -/
theorem C3_other_tags_witness :
    (HandleMessage (sampleEnv true true 1 keyDownEvent 0) 0x1000 (worldWith charEvent)).1
      = false ∧
    (HandleMessage (sampleEnv true true 1 keyDownEvent 0) 0x1000 (worldWith mouseMoveEvent)).1
      = true :=
  ⟨(C3_other_tags_classified (sampleEnv true true 1 keyDownEvent 0) 0x1000 (worldWith charEvent)
      (by decide) rfl (by decide) (by decide) (by decide)).1 (by decide),
   (C3_other_tags_classified (sampleEnv true true 1 keyDownEvent 0) 0x1000
      (worldWith mouseMoveEvent) (by decide) rfl (by decide) (by decide) (by decide)).2
      (by decide)⟩

/-! ## C4 -/

/-- C4: camera-disabled short circuit.  When `IsCameraEnabled()` is false, `HandleMessage` returns
false for every event (every tag, `WM_INPUT` included, every window, every payload), memory is
untouched, and none of the calls it makes is a `GetRawInputData` call. -/
theorem C4_camera_disabled_short_circuit (env : Env) (lpMsg : Nat) (w : World)
    (hcam : env.IsCameraEnabled = false) :
    (HandleMessage env lpMsg w).1 = false ∧
    (HandleMessage env lpMsg w).2.mem = w.mem ∧
    ∃ rest, (HandleMessage env lpMsg w).2.log = w.log ++ rest ∧
      ∀ c ∈ rest, c.isGetRawInputData = false := by
  refine ⟨?_, HandleMessage_mem env lpMsg w, ?_⟩
  · rw [HandleMessage_result]
    simp [hcam]
  · unfold HandleMessage
    simp only [World.call, hcam]
    split_ifs
    · exact ⟨[Call.HandleMessage lpMsg], rfl, by simp [Call.isGetRawInputData]⟩
    · exact ⟨[Call.HandleMessage lpMsg], rfl, by simp [Call.isGetRawInputData]⟩
    · exact ⟨[Call.HandleMessage lpMsg, Call.IsCameraEnabled], by simp,
        by simp [Call.isGetRawInputData]⟩

/-- C4 at a concrete input: a raw-input event for a non-null window while the camera is off; the
log shows the entry and the `IsCameraEnabled` call only. -/
theorem C4_camera_disabled_witness :
    (HandleMessage (sampleEnv true false 1 keyDownEvent 0) 0x1000 (worldWith rawInputEvent)).1
      = false ∧
    (HandleMessage (sampleEnv true false 1 keyDownEvent 0) 0x1000 (worldWith rawInputEvent)).2.log
      = [Call.HandleMessage 0x1000, Call.IsCameraEnabled] :=
  ⟨(C4_camera_disabled_short_circuit (sampleEnv true false 1 keyDownEvent 0) 0x1000
      (worldWith rawInputEvent) rfl).1, by decide⟩

/-! ## C5 -/

/-- C5: peek without removal never mutates.  For `DetourPeekMessageA` and `DetourPeekMessageW`,
for every `wRemoveMsg` whose `PM_REMOVE` bit is clear, every value of the two flags and every
event the original writes, the event handed back at `lpMsg` is the one the original wrote (all of
memory is), and the detour returns `TRUE` exactly when the original returned non-zero. -/
theorem C5_peek_without_remove_never_mutates
    (env : Env) (lpMsg hWnd wMsgFilterMin wMsgFilterMax wRemoveMsg : Nat) (w : World)
    (hclear : wRemoveMsg &&& PM_REMOVE = 0) :
    ((DetourPeekMessageA env lpMsg hWnd wMsgFilterMin wMsgFilterMax wRemoveMsg w).2.mem.msg lpMsg
        = (env.hookedPeekMessageA lpMsg hWnd wMsgFilterMin wMsgFilterMax wRemoveMsg w.mem).2.msg
            lpMsg ∧
      (DetourPeekMessageA env lpMsg hWnd wMsgFilterMin wMsgFilterMax wRemoveMsg w).2.mem
        = (env.hookedPeekMessageA lpMsg hWnd wMsgFilterMin wMsgFilterMax wRemoveMsg w.mem).2 ∧
      ((DetourPeekMessageA env lpMsg hWnd wMsgFilterMin wMsgFilterMax wRemoveMsg w).1 = TRUE ↔
        (env.hookedPeekMessageA lpMsg hWnd wMsgFilterMin wMsgFilterMax wRemoveMsg w.mem).1
          ≠ 0)) ∧
    ((DetourPeekMessageW env lpMsg hWnd wMsgFilterMin wMsgFilterMax wRemoveMsg w).2.mem.msg lpMsg
        = (env.hookedPeekMessageW lpMsg hWnd wMsgFilterMin wMsgFilterMax wRemoveMsg w.mem).2.msg
            lpMsg ∧
      (DetourPeekMessageW env lpMsg hWnd wMsgFilterMin wMsgFilterMax wRemoveMsg w).2.mem
        = (env.hookedPeekMessageW lpMsg hWnd wMsgFilterMin wMsgFilterMax wRemoveMsg w.mem).2 ∧
      ((DetourPeekMessageW env lpMsg hWnd wMsgFilterMin wMsgFilterMax wRemoveMsg w).1 = TRUE ↔
        (env.hookedPeekMessageW lpMsg hWnd wMsgFilterMin wMsgFilterMax wRemoveMsg w.mem).1
          ≠ 0)) := by
  have hA : (DetourPeekMessageA env lpMsg hWnd wMsgFilterMin wMsgFilterMax wRemoveMsg w).2.mem
      = (env.hookedPeekMessageA lpMsg hWnd wMsgFilterMin wMsgFilterMax wRemoveMsg w.mem).2 := by
    unfold DetourPeekMessageA
    simp only [World.call]
    split_ifs
    · rfl
    · simp [ProcessMessage_mem, hclear]
  have hW : (DetourPeekMessageW env lpMsg hWnd wMsgFilterMin wMsgFilterMax wRemoveMsg w).2.mem
      = (env.hookedPeekMessageW lpMsg hWnd wMsgFilterMin wMsgFilterMax wRemoveMsg w.mem).2 := by
    unfold DetourPeekMessageW
    simp only [World.call]
    split_ifs
    · rfl
    · simp [ProcessMessage_mem, hclear]
  refine ⟨⟨by rw [hA], hA, ?_⟩, ⟨by rw [hW], hW, ?_⟩⟩
  · unfold DetourPeekMessageA
    simp only [World.call]
    split_ifs with h <;> simp [h, TRUE, FALSE]
  · unfold DetourPeekMessageW
    simp only [World.call]
    split_ifs with h <;> simp [h, TRUE, FALSE]

/-- C5 at a concrete input: camera enabled, blocking on, `wRemoveMsg = PM_NOYIELD`, and the
original delivers `keyDownEvent`: the event comes back as delivered. -/
theorem C5_peek_without_remove_witness :
    PM_NOYIELD &&& PM_REMOVE = 0 ∧
    (DetourPeekMessageA (sampleEnv true true 1 keyDownEvent 0) 0x1000 0 0 0 PM_NOYIELD
      (worldWith charEvent)).2.mem.msg 0x1000 = keyDownEvent ∧
    (DetourPeekMessageW (sampleEnv true true 1 keyDownEvent 0) 0x1000 0 0 0 PM_NOYIELD
      (worldWith charEvent)).2.mem.msg 0x1000 = keyDownEvent :=
  ⟨by decide,
   (C5_peek_without_remove_never_mutates (sampleEnv true true 1 keyDownEvent 0) 0x1000 0 0 0
      PM_NOYIELD (worldWith charEvent) (by decide)).1.1,
   (C5_peek_without_remove_never_mutates (sampleEnv true true 1 keyDownEvent 0) 0x1000 0 0 0
      PM_NOYIELD (worldWith charEvent) (by decide)).2.1⟩

/-! ## C6 -/

/-- C6: controller-state self-call exemption.  When `pState` is the buffer `g_gamePad->getState()`
returns, the buffer after `DetourXInputGetState` holds exactly what the original wrote (all of
memory does), for every state, every `dwUserIndex` and both values of `g_inputBlocked`. -/
theorem C6_own_buffer_is_exempt (env : Env) (dwUserIndex pState : Nat) (w : World)
    (hself : pState = env.g_gamePad_getState) :
    (DetourXInputGetState env dwUserIndex pState w).2.mem.pad pState
      = (env.hookedXInputGetState dwUserIndex pState w.mem).2.pad pState ∧
    (DetourXInputGetState env dwUserIndex pState w).2.mem
      = (env.hookedXInputGetState dwUserIndex pState w.mem).2 := by
  simp [DetourXInputGetState, World.call, hself]

/-- C6 at a concrete input: blocking on, the caller passes the tool's own buffer `0x7000` and the
original stores `heldState`. -/
theorem C6_own_buffer_witness :
    (sampleEnv true true 1 keyDownEvent 0).g_inputBlocked = true ∧
    (DetourXInputGetState (sampleEnv true true 1 keyDownEvent 0) 0 0x7000
      (worldWith charEvent)).2.mem.pad 0x7000 = heldState :=
  ⟨rfl, (C6_own_buffer_is_exempt (sampleEnv true true 1 keyDownEvent 0) 0 0x7000
      (worldWith charEvent) rfl).1⟩

/-! ## C7 -/

/-- C7: controller-state blanking.  When `pState` is a buffer other than
`g_gamePad->getState()` and `g_inputBlocked` is true, after `DetourXInputGetState` every field of
`*pState` is zero, whatever the original wrote and whatever result code it returned. -/
theorem C7_foreign_buffer_is_blanked (env : Env) (dwUserIndex pState : Nat) (w : World)
    (hother : pState ≠ env.g_gamePad_getState) (hblock : env.g_inputBlocked = true) :
    ((DetourXInputGetState env dwUserIndex pState w).2.mem.pad pState).dwPacketNumber = 0 ∧
    ((DetourXInputGetState env dwUserIndex pState w).2.mem.pad pState).Gamepad.wButtons = 0 ∧
    ((DetourXInputGetState env dwUserIndex pState w).2.mem.pad pState).Gamepad.bLeftTrigger = 0 ∧
    ((DetourXInputGetState env dwUserIndex pState w).2.mem.pad pState).Gamepad.bRightTrigger = 0 ∧
    ((DetourXInputGetState env dwUserIndex pState w).2.mem.pad pState).Gamepad.sThumbLX = 0 ∧
    ((DetourXInputGetState env dwUserIndex pState w).2.mem.pad pState).Gamepad.sThumbLY = 0 ∧
    ((DetourXInputGetState env dwUserIndex pState w).2.mem.pad pState).Gamepad.sThumbRX = 0 ∧
    ((DetourXInputGetState env dwUserIndex pState w).2.mem.pad pState).Gamepad.sThumbRY = 0 := by
  simp [DetourXInputGetState, World.call, World.zeroState, hother, hblock]

/-- C7 at a concrete input: blocking on, the host passes its buffer `0x2000`, the original stores
`heldState` and reports failure code 1167 (`ERROR_DEVICE_NOT_CONNECTED`). -/
theorem C7_foreign_buffer_witness :
    ((sampleEnv true true 1 keyDownEvent 1167).hookedXInputGetState 3 0x2000
      (worldWith charEvent).mem).2.pad 0x2000 = heldState ∧
    (DetourXInputGetState (sampleEnv true true 1 keyDownEvent 1167) 3 0x2000
      (worldWith charEvent)).2.mem.pad 0x2000 = ⟨0, ⟨0, 0, 0, 0, 0, 0, 0⟩⟩ ∧
    ((DetourXInputGetState (sampleEnv true true 1 keyDownEvent 1167) 3 0x2000
      (worldWith charEvent)).2.mem.pad 0x2000).Gamepad.wButtons = 0 :=
  ⟨by decide, by decide,
   (C7_foreign_buffer_is_blanked (sampleEnv true true 1 keyDownEvent 1167) 3 0x2000
      (worldWith charEvent) (by decide) rfl).2.1⟩

/-! ## C8 -/

/-- C8 as stated fails: when the saved original returns -1 (the documented error result of
`GetMessage`), each of the four detours returns `TRUE`, not -1. -/
theorem C8_error_result_counterexample :
    ((sampleEnv false false (-1) charEvent 0).hookedGetMessageA 0x1000 0 0 0
        (worldWith charEvent).mem).1 = -1 ∧
    (DetourGetMessageA (sampleEnv false false (-1) charEvent 0) 0x1000 0 0 0
        (worldWith charEvent)).1 = 1 ∧
    ((sampleEnv false false (-1) charEvent 0).hookedGetMessageW 0x1000 0 0 0
        (worldWith charEvent).mem).1 = -1 ∧
    (DetourGetMessageW (sampleEnv false false (-1) charEvent 0) 0x1000 0 0 0
        (worldWith charEvent)).1 = 1 ∧
    ((sampleEnv false false (-1) charEvent 0).hookedPeekMessageA 0x1000 0 0 0 PM_REMOVE
        (worldWith charEvent).mem).1 = -1 ∧
    (DetourPeekMessageA (sampleEnv false false (-1) charEvent 0) 0x1000 0 0 0 PM_REMOVE
        (worldWith charEvent)).1 = 1 ∧
    ((sampleEnv false false (-1) charEvent 0).hookedPeekMessageW 0x1000 0 0 0 PM_REMOVE
        (worldWith charEvent).mem).1 = -1 ∧
    (DetourPeekMessageW (sampleEnv false false (-1) charEvent 0) 0x1000 0 0 0 PM_REMOVE
        (worldWith charEvent)).1 = 1 := by
  decide

/-- C8, amended: each of the four event-retrieval detours returns `FALSE` (0) when the saved
original returns 0 and `TRUE` (1) when it returns any non-zero value; the value returned is the
original's own exactly when that value is 0 or 1. -/
theorem C8_return_value_is_normalized
    (env : Env) (lpMsg hWnd wMsgFilterMin wMsgFilterMax wRemoveMsg : Nat) (w : World) :
    ((DetourGetMessageA env lpMsg hWnd wMsgFilterMin wMsgFilterMax w).1
        = (if (env.hookedGetMessageA lpMsg hWnd wMsgFilterMin wMsgFilterMax w.mem).1 = 0
            then FALSE else TRUE) ∧
      ((DetourGetMessageA env lpMsg hWnd wMsgFilterMin wMsgFilterMax w).1
          = (env.hookedGetMessageA lpMsg hWnd wMsgFilterMin wMsgFilterMax w.mem).1 ↔
        (env.hookedGetMessageA lpMsg hWnd wMsgFilterMin wMsgFilterMax w.mem).1 = 0 ∨
        (env.hookedGetMessageA lpMsg hWnd wMsgFilterMin wMsgFilterMax w.mem).1 = 1)) ∧
    ((DetourGetMessageW env lpMsg hWnd wMsgFilterMin wMsgFilterMax w).1
        = (if (env.hookedGetMessageW lpMsg hWnd wMsgFilterMin wMsgFilterMax w.mem).1 = 0
            then FALSE else TRUE) ∧
      ((DetourGetMessageW env lpMsg hWnd wMsgFilterMin wMsgFilterMax w).1
          = (env.hookedGetMessageW lpMsg hWnd wMsgFilterMin wMsgFilterMax w.mem).1 ↔
        (env.hookedGetMessageW lpMsg hWnd wMsgFilterMin wMsgFilterMax w.mem).1 = 0 ∨
        (env.hookedGetMessageW lpMsg hWnd wMsgFilterMin wMsgFilterMax w.mem).1 = 1)) ∧
    ((DetourPeekMessageA env lpMsg hWnd wMsgFilterMin wMsgFilterMax wRemoveMsg w).1
        = (if (env.hookedPeekMessageA lpMsg hWnd wMsgFilterMin wMsgFilterMax wRemoveMsg
                w.mem).1 = 0
            then FALSE else TRUE) ∧
      ((DetourPeekMessageA env lpMsg hWnd wMsgFilterMin wMsgFilterMax wRemoveMsg w).1
          = (env.hookedPeekMessageA lpMsg hWnd wMsgFilterMin wMsgFilterMax wRemoveMsg w.mem).1 ↔
        (env.hookedPeekMessageA lpMsg hWnd wMsgFilterMin wMsgFilterMax wRemoveMsg w.mem).1 = 0 ∨
        (env.hookedPeekMessageA lpMsg hWnd wMsgFilterMin wMsgFilterMax wRemoveMsg w.mem).1
          = 1)) ∧
    ((DetourPeekMessageW env lpMsg hWnd wMsgFilterMin wMsgFilterMax wRemoveMsg w).1
        = (if (env.hookedPeekMessageW lpMsg hWnd wMsgFilterMin wMsgFilterMax wRemoveMsg
                w.mem).1 = 0
            then FALSE else TRUE) ∧
      ((DetourPeekMessageW env lpMsg hWnd wMsgFilterMin wMsgFilterMax wRemoveMsg w).1
          = (env.hookedPeekMessageW lpMsg hWnd wMsgFilterMin wMsgFilterMax wRemoveMsg w.mem).1 ↔
        (env.hookedPeekMessageW lpMsg hWnd wMsgFilterMin wMsgFilterMax wRemoveMsg w.mem).1 = 0 ∨
        (env.hookedPeekMessageW lpMsg hWnd wMsgFilterMin wMsgFilterMax wRemoveMsg w.mem).1
          = 1)) := by
  refine ⟨⟨?_, ?_⟩, ⟨?_, ?_⟩, ⟨?_, ?_⟩, ⟨?_, ?_⟩⟩
  · unfold DetourGetMessageA; simp only [World.call]; split_ifs <;> rfl
  · unfold DetourGetMessageA; simp only [World.call]
    split_ifs with h
    · simp [h, FALSE]
    · simp [h, TRUE, eq_comm]
  · unfold DetourGetMessageW; simp only [World.call]; split_ifs <;> rfl
  · unfold DetourGetMessageW; simp only [World.call]
    split_ifs with h
    · simp [h, FALSE]
    · simp [h, TRUE, eq_comm]
  · unfold DetourPeekMessageA; simp only [World.call]; split_ifs <;> rfl
  · unfold DetourPeekMessageA; simp only [World.call]
    split_ifs with h
    · simp [h, FALSE]
    · simp [h, TRUE, eq_comm]
  · unfold DetourPeekMessageW; simp only [World.call]; split_ifs <;> rfl
  · unfold DetourPeekMessageW; simp only [World.call]
    split_ifs with h
    · simp [h, FALSE]
    · simp [h, TRUE, eq_comm]

/-! ## C9 -/

/-- Whatever MinHook answers, every hook `SetInputHooks` adds to an empty table has
`DetourXInputGetState` as its detour: no hook for a message detour is ever created. -/
theorem SetInputHooks_creates_xinput_only (mh : MinHookEnv) :
    ∀ h ∈ (SetInputHooks mh ⟨[], [], []⟩).hooks, h.pDetour = Detour.DetourXInputGetState := by
  intro h hh
  unfold SetInputHooks MH_EnableHook_ALL_HOOKS MH_CreateHookApiEx at hh
  simp only [Installation.WriteError, Installation.WriteLine] at hh
  split_ifs at hh <;> simp_all

/-- C9, evaluated on the code.  When only the creation of the `GetMessageA` hook would fail,
`SetInputHooks` ends with one hook in the table, the enabled `XInputGetState` hook (not four), and
no error line (not one); when nothing fails the table is the same single hook; and when the
creation of the `XInputGetState` hook fails the table ends empty with one error line. -/
theorem C9_only_xinput_hook_is_created :
    SetInputHooks getMessageAFails ⟨[], [], []⟩
      = ⟨[⟨"xinput9_1_0", "XInputGetState", Detour.DetourXInputGetState, true⟩], [], []⟩ ∧
    SetInputHooks ⟨fun _ _ => MH_OK, MH_OK, false⟩ ⟨[], [], []⟩
      = ⟨[⟨"xinput9_1_0", "XInputGetState", Detour.DetourXInputGetState, true⟩], [], []⟩ ∧
    SetInputHooks ⟨fun _ _ => 1, MH_OK, false⟩ ⟨[], [], []⟩
      = ⟨[], ["Hooking XInput 9_1_0 failed!"], []⟩ := by
  decide

/-! ## C10 -/

theorem LogGrowsUnhooked.refl (w : World) : LogGrowsUnhooked w w :=
  ⟨[], by simp, by simp⟩

theorem LogGrowsUnhooked.step {w1 w2 : World} (c : Call) (h : LogGrowsUnhooked w1 w2)
    (hc : c.isHooked = false) : LogGrowsUnhooked w1 (w2.call c) := by
  obtain ⟨rest, hlog, hrest⟩ := h
  refine ⟨rest ++ [c], by simp [World.call, hlog], ?_⟩
  intro d hd
  rcases List.mem_append.mp hd with hd | hd
  · exact hrest d hd
  · simp at hd
    rw [hd]
    exact hc

theorem LogGrowsUnhooked.trans {w1 w2 w3 : World} (h12 : LogGrowsUnhooked w1 w2)
    (h23 : LogGrowsUnhooked w2 w3) : LogGrowsUnhooked w1 w3 := by
  obtain ⟨r1, hl1, hr1⟩ := h12
  obtain ⟨r2, hl2, hr2⟩ := h23
  refine ⟨r1 ++ r2, by simp [hl2, hl1], ?_⟩
  intro d hd
  rcases List.mem_append.mp hd with hd | hd
  · exact hr1 d hd
  · exact hr2 d hd

theorem LogGrowsUnhooked.sameLog {w1 w2 w3 : World} (h : LogGrowsUnhooked w1 w2)
    (hlog : w3.log = w2.log) : LogGrowsUnhooked w1 w3 := by
  obtain ⟨rest, hl, hr⟩ := h
  exact ⟨rest, by rw [hlog, hl], hr⟩

/-- No saved original is called by `HandleMessage`. -/
theorem HandleMessage_log (env : Env) (lpMsg : Nat) (w : World) :
    LogGrowsUnhooked w (HandleMessage env lpMsg w).2 := by
  unfold HandleMessage
  dsimp only
  split_ifs <;>
    repeat (first | exact LogGrowsUnhooked.refl _ | refine LogGrowsUnhooked.step _ ?_ rfl)

/-- No saved original is called by `ProcessMessage`. -/
theorem ProcessMessage_log (env : Env) (lpMsg : Nat) (removeIfRequired : Bool) (w : World) :
    LogGrowsUnhooked w (ProcessMessage env lpMsg removeIfRequired w) := by
  have h0 : LogGrowsUnhooked w (w.call (.ProcessMessage lpMsg removeIfRequired)) :=
    LogGrowsUnhooked.step _ (LogGrowsUnhooked.refl w) rfl
  have h1 := h0.trans (HandleMessage_log env lpMsg (w.call (.ProcessMessage lpMsg removeIfRequired)))
  unfold ProcessMessage
  dsimp only
  split_ifs
  · exact h0
  · exact h0
  · exact h1.sameLog rfl
  · exact h1
  · exact h1

/-- From the world right after the call through the saved original to the end of a detour. -/
theorem log_after_hooked_call {w w1 w2 : World} (c : Call) (h1 : w1.log = w.log ++ [c])
    (h : LogGrowsUnhooked w1 w2) :
    ∃ rest, w2.log = w.log ++ c :: rest ∧ ∀ d ∈ rest, d.isHooked = false := by
  obtain ⟨rest, hl, hr⟩ := h
  exact ⟨rest, by rw [hl, h1]; simp, hr⟩

/-- The log a detour leaves when it returns right after the call through the original. -/
theorem log_only_hooked_call (w : World) (c : Call) :
    ∃ rest, w.log ++ [c] = w.log ++ c :: rest ∧ ∀ d ∈ rest, d.isHooked = false :=
  ⟨[], rfl, by simp⟩

/-- C10: exactly-once forwarding.  For every environment (both flags, every original) and every
call, with `r` the result of ONE application of the saved original to exactly the caller's
arguments and the caller's memory:

* `DetourXInputGetState` returns `r.1` and leaves the memory `r.2`, zeroed at `pState` when the
  buffer is not the tool's own and blocking is on;
* each event-retrieval detour returns `FALSE` or `TRUE` by `r.1` and leaves the world that
  `ProcessMessage` makes of the memory `r.2` (the memory `r.2` itself when `r.1` is 0);
* `ProcessMessage`, all the detour runs after that application, is the same function whatever
  the five saved originals are: it applies none of them;
* in the call log the call through the saved original, with the caller's arguments, is the first
  entry the detour adds, and no later entry is a call through a saved original. -/
theorem C10_original_invoked_exactly_once_first
    (env : Env) (dwUserIndex pState lpMsg hWnd wMsgFilterMin wMsgFilterMax wRemoveMsg : Nat)
    (w : World) :
    (∀ r, r = env.hookedXInputGetState dwUserIndex pState w.mem →
      (DetourXInputGetState env dwUserIndex pState w).1 = r.1 ∧
      (DetourXInputGetState env dwUserIndex pState w).2.mem
        = (if pState ≠ env.g_gamePad_getState ∧ env.g_inputBlocked = true
            then { r.2 with pad := Function.update r.2.pad pState ⟨0, ⟨0, 0, 0, 0, 0, 0, 0⟩⟩ }
            else r.2) ∧
      ∃ rest, (DetourXInputGetState env dwUserIndex pState w).2.log
          = w.log ++ Call.hookedXInputGetState dwUserIndex pState :: rest ∧
        ∀ c ∈ rest, c.isHooked = false) ∧
    (∀ r, r = env.hookedGetMessageA lpMsg hWnd wMsgFilterMin wMsgFilterMax w.mem →
      (DetourGetMessageA env lpMsg hWnd wMsgFilterMin wMsgFilterMax w).1
        = (if r.1 = 0 then FALSE else TRUE) ∧
      (DetourGetMessageA env lpMsg hWnd wMsgFilterMin wMsgFilterMax w).2
        = (if r.1 = 0
            then ⟨r.2, w.log ++ [Call.hookedGetMessageA lpMsg hWnd wMsgFilterMin wMsgFilterMax]⟩
            else ProcessMessage env lpMsg true
              ⟨r.2, w.log ++ [Call.hookedGetMessageA lpMsg hWnd wMsgFilterMin wMsgFilterMax]⟩) ∧
      ∃ rest, (DetourGetMessageA env lpMsg hWnd wMsgFilterMin wMsgFilterMax w).2.log
          = w.log ++ Call.hookedGetMessageA lpMsg hWnd wMsgFilterMin wMsgFilterMax :: rest ∧
        ∀ c ∈ rest, c.isHooked = false) ∧
    (∀ r, r = env.hookedGetMessageW lpMsg hWnd wMsgFilterMin wMsgFilterMax w.mem →
      (DetourGetMessageW env lpMsg hWnd wMsgFilterMin wMsgFilterMax w).1
        = (if r.1 = 0 then FALSE else TRUE) ∧
      (DetourGetMessageW env lpMsg hWnd wMsgFilterMin wMsgFilterMax w).2
        = (if r.1 = 0
            then ⟨r.2, w.log ++ [Call.hookedGetMessageW lpMsg hWnd wMsgFilterMin wMsgFilterMax]⟩
            else ProcessMessage env lpMsg true
              ⟨r.2, w.log ++ [Call.hookedGetMessageW lpMsg hWnd wMsgFilterMin wMsgFilterMax]⟩) ∧
      ∃ rest, (DetourGetMessageW env lpMsg hWnd wMsgFilterMin wMsgFilterMax w).2.log
          = w.log ++ Call.hookedGetMessageW lpMsg hWnd wMsgFilterMin wMsgFilterMax :: rest ∧
        ∀ c ∈ rest, c.isHooked = false) ∧
    (∀ r, r = env.hookedPeekMessageA lpMsg hWnd wMsgFilterMin wMsgFilterMax wRemoveMsg w.mem →
      (DetourPeekMessageA env lpMsg hWnd wMsgFilterMin wMsgFilterMax wRemoveMsg w).1
        = (if r.1 = 0 then FALSE else TRUE) ∧
      (DetourPeekMessageA env lpMsg hWnd wMsgFilterMin wMsgFilterMax wRemoveMsg w).2
        = (if r.1 = 0
            then ⟨r.2, w.log ++
              [Call.hookedPeekMessageA lpMsg hWnd wMsgFilterMin wMsgFilterMax wRemoveMsg]⟩
            else ProcessMessage env lpMsg ((wRemoveMsg &&& PM_REMOVE) != 0)
              ⟨r.2, w.log ++
                [Call.hookedPeekMessageA lpMsg hWnd wMsgFilterMin wMsgFilterMax wRemoveMsg]⟩) ∧
      ∃ rest, (DetourPeekMessageA env lpMsg hWnd wMsgFilterMin wMsgFilterMax wRemoveMsg w).2.log
          = w.log ++ Call.hookedPeekMessageA lpMsg hWnd wMsgFilterMin wMsgFilterMax wRemoveMsg
              :: rest ∧
        ∀ c ∈ rest, c.isHooked = false) ∧
    (∀ r, r = env.hookedPeekMessageW lpMsg hWnd wMsgFilterMin wMsgFilterMax wRemoveMsg w.mem →
      (DetourPeekMessageW env lpMsg hWnd wMsgFilterMin wMsgFilterMax wRemoveMsg w).1
        = (if r.1 = 0 then FALSE else TRUE) ∧
      (DetourPeekMessageW env lpMsg hWnd wMsgFilterMin wMsgFilterMax wRemoveMsg w).2
        = (if r.1 = 0
            then ⟨r.2, w.log ++
              [Call.hookedPeekMessageW lpMsg hWnd wMsgFilterMin wMsgFilterMax wRemoveMsg]⟩
            else ProcessMessage env lpMsg ((wRemoveMsg &&& PM_REMOVE) != 0)
              ⟨r.2, w.log ++
                [Call.hookedPeekMessageW lpMsg hWnd wMsgFilterMin wMsgFilterMax wRemoveMsg]⟩) ∧
      ∃ rest, (DetourPeekMessageW env lpMsg hWnd wMsgFilterMin wMsgFilterMax wRemoveMsg w).2.log
          = w.log ++ Call.hookedPeekMessageW lpMsg hWnd wMsgFilterMin wMsgFilterMax wRemoveMsg
              :: rest ∧
        ∀ c ∈ rest, c.isHooked = false) ∧
    (∀ x ga gw pa pw (removeIfRequired : Bool) (v : World),
      ProcessMessage (env.withOriginals x ga gw pa pw) lpMsg removeIfRequired v
        = ProcessMessage env lpMsg removeIfRequired v) := by
  refine ⟨?_, ?_, ?_, ?_, ?_, ?_⟩
  · intro r hr
    subst hr
    refine ⟨?_, ?_, ?_⟩
    · unfold DetourXInputGetState
      dsimp only
      split_ifs <;> rfl
    · unfold DetourXInputGetState
      dsimp only
      by_cases h1 : pState = env.g_gamePad_getState
      · simp [h1, World.call]
      · by_cases h2 : env.g_inputBlocked = true
        · simp [h1, h2, World.call, World.zeroState]
        · simp [h1, h2, World.call]
    · unfold DetourXInputGetState
      dsimp only
      split_ifs
      · exact ⟨[Call.getState, Call.ZeroMemory pState], by simp [World.call, World.zeroState],
          by simp [Call.isHooked]⟩
      · exact ⟨[Call.getState], by simp [World.call], by simp [Call.isHooked]⟩
      · exact ⟨[Call.getState], by simp [World.call], by simp [Call.isHooked]⟩
  · intro r hr
    subst hr
    unfold DetourGetMessageA
    dsimp only [World.call]
    split_ifs
    · exact ⟨rfl, rfl, log_only_hooked_call w _⟩
    · exact ⟨rfl, rfl, log_after_hooked_call _ rfl (ProcessMessage_log env lpMsg true _)⟩
  · intro r hr
    subst hr
    unfold DetourGetMessageW
    dsimp only [World.call]
    split_ifs
    · exact ⟨rfl, rfl, log_only_hooked_call w _⟩
    · exact ⟨rfl, rfl, log_after_hooked_call _ rfl (ProcessMessage_log env lpMsg true _)⟩
  · intro r hr
    subst hr
    unfold DetourPeekMessageA
    dsimp only [World.call]
    split_ifs
    · exact ⟨rfl, rfl, log_only_hooked_call w _⟩
    · exact ⟨rfl, rfl, log_after_hooked_call _ rfl (ProcessMessage_log env lpMsg _ _)⟩
  · intro r hr
    subst hr
    unfold DetourPeekMessageW
    dsimp only [World.call]
    split_ifs
    · exact ⟨rfl, rfl, log_only_hooked_call w _⟩
    · exact ⟨rfl, rfl, log_after_hooked_call _ rfl (ProcessMessage_log env lpMsg _ _)⟩
  · intro x ga gw pa pw removeIfRequired v
    rfl

/-- C10 at a concrete input: originals that count their own invocations at address `0x9000`.
After each detour the counter reads one more than before, with the camera enabled, blocking on
and the delivered key-down neutralized. -/
theorem C10_original_invoked_witness :
    ((worldWith charEvent).mem.msg 0x9000).time = 123480 ∧
    ((DetourGetMessageA countingEnv 0x1000 0 0 0 (worldWith charEvent)).2.mem.msg 0x9000).time
      = 123481 ∧
    ((DetourPeekMessageW countingEnv 0x1000 0 0 0 PM_REMOVE
      (worldWith charEvent)).2.mem.msg 0x9000).time = 123481 ∧
    ((DetourGetMessageA countingEnv 0x1000 0 0 0 (worldWith charEvent)).2.mem.msg 0x1000).message
      = WM_NULL ∧
    ((DetourXInputGetState countingEnv 0 0x2000 (worldWith charEvent)).2.mem.pad
      0x9000).dwPacketNumber = 1 :=
  ⟨by decide,
   (congrArg (fun v : World => (v.mem.msg 0x9000).time)
      ((C10_original_invoked_exactly_once_first countingEnv 0 0x2000 0x1000 0 0 0 PM_REMOVE
        (worldWith charEvent)).2.1 _ rfl).2.1).trans (by decide),
   (congrArg (fun v : World => (v.mem.msg 0x9000).time)
      ((C10_original_invoked_exactly_once_first countingEnv 0 0x2000 0x1000 0 0 0 PM_REMOVE
        (worldWith charEvent)).2.2.2.2.1 _ rfl).2.1).trans (by decide),
   (congrArg (fun v : World => (v.mem.msg 0x1000).message)
      ((C10_original_invoked_exactly_once_first countingEnv 0 0x2000 0x1000 0 0 0 PM_REMOVE
        (worldWith charEvent)).2.1 _ rfl).2.1).trans (by decide),
   (congrArg (fun m : Memory => (m.pad 0x9000).dwPacketNumber)
      ((C10_original_invoked_exactly_once_first countingEnv 0 0x2000 0x1000 0 0 0 PM_REMOVE
        (worldWith charEvent)).1 _ rfl).2.1).trans (by decide)⟩

/-! ## C11 -/

/-- C11: neutralization is gated by the blocking flag.  When `g_inputBlocked` is false,
`ProcessMessage` leaves memory (so the `message` of every event) as it was, for every event,
every `removeIfRequired` and either value of the camera flag; and each of the four
event-retrieval detours leaves memory as the saved original left it. -/
theorem C11_no_neutralization_without_blocking
    (env : Env) (lpMsg hWnd wMsgFilterMin wMsgFilterMax wRemoveMsg : Nat)
    (removeIfRequired : Bool) (w : World) (hblock : env.g_inputBlocked = false) :
    ((ProcessMessage env lpMsg removeIfRequired w).mem.msg lpMsg).message
      = (w.mem.msg lpMsg).message ∧
    (ProcessMessage env lpMsg removeIfRequired w).mem = w.mem ∧
    (DetourGetMessageA env lpMsg hWnd wMsgFilterMin wMsgFilterMax w).2.mem
      = (env.hookedGetMessageA lpMsg hWnd wMsgFilterMin wMsgFilterMax w.mem).2 ∧
    (DetourGetMessageW env lpMsg hWnd wMsgFilterMin wMsgFilterMax w).2.mem
      = (env.hookedGetMessageW lpMsg hWnd wMsgFilterMin wMsgFilterMax w.mem).2 ∧
    (DetourPeekMessageA env lpMsg hWnd wMsgFilterMin wMsgFilterMax wRemoveMsg w).2.mem
      = (env.hookedPeekMessageA lpMsg hWnd wMsgFilterMin wMsgFilterMax wRemoveMsg w.mem).2 ∧
    (DetourPeekMessageW env lpMsg hWnd wMsgFilterMin wMsgFilterMax wRemoveMsg w).2.mem
      = (env.hookedPeekMessageW lpMsg hWnd wMsgFilterMin wMsgFilterMax wRemoveMsg w.mem).2 := by
  have hpm : ∀ (r : Bool) (v : World), (ProcessMessage env lpMsg r v).mem = v.mem := by
    intro r v
    rw [ProcessMessage_mem]
    simp [hblock]
  refine ⟨by rw [hpm], hpm _ _, ?_, ?_, ?_, ?_⟩
  · unfold DetourGetMessageA; dsimp only; split_ifs
    · rfl
    · simp [hpm, World.call]
  · unfold DetourGetMessageW; dsimp only; split_ifs
    · rfl
    · simp [hpm, World.call]
  · unfold DetourPeekMessageA; dsimp only; split_ifs
    · rfl
    · simp [hpm, World.call]
  · unfold DetourPeekMessageW; dsimp only; split_ifs
    · rfl
    · simp [hpm, World.call]

/-- C11 at a concrete input: camera enabled, blocking off, a key-down for window `0x5A0` that is
being removed: the event stays a key-down. -/
theorem C11_no_neutralization_witness :
    ((ProcessMessage (sampleEnv false true 1 keyDownEvent 0) 0x1000 true
      (worldWith keyDownEvent)).mem.msg 0x1000).message = WM_KEYDOWN ∧
    (DetourGetMessageA (sampleEnv false true 1 keyDownEvent 0) 0x1000 0 0 0
      (worldWith charEvent)).2.mem.msg 0x1000 = keyDownEvent :=
  ⟨(C11_no_neutralization_without_blocking (sampleEnv false true 1 keyDownEvent 0) 0x1000 0 0 0
      PM_REMOVE true (worldWith keyDownEvent) rfl).1,
   congrArg (fun m => m.msg 0x1000)
    (C11_no_neutralization_without_blocking (sampleEnv false true 1 keyDownEvent 0) 0x1000 0 0 0
      PM_REMOVE true (worldWith charEvent) rfl).2.2.1⟩

/-! ## C12 -/

/-- C12: neutralization frame.  For every event, every `removeIfRequired` and every value of the
two flags, after `ProcessMessage` the fields `hwnd`, `wParam`, `lParam`, `time` and `pt` of the
event are what they were, `message` is what it was or `WM_NULL`, and nothing else in memory (no
other event, no controller state) has changed. -/
theorem C12_only_message_field_changes
    (env : Env) (lpMsg : Nat) (removeIfRequired : Bool) (w : World) :
    ((ProcessMessage env lpMsg removeIfRequired w).mem.msg lpMsg).hwnd
      = (w.mem.msg lpMsg).hwnd ∧
    ((ProcessMessage env lpMsg removeIfRequired w).mem.msg lpMsg).wParam
      = (w.mem.msg lpMsg).wParam ∧
    ((ProcessMessage env lpMsg removeIfRequired w).mem.msg lpMsg).lParam
      = (w.mem.msg lpMsg).lParam ∧
    ((ProcessMessage env lpMsg removeIfRequired w).mem.msg lpMsg).time
      = (w.mem.msg lpMsg).time ∧
    ((ProcessMessage env lpMsg removeIfRequired w).mem.msg lpMsg).pt
      = (w.mem.msg lpMsg).pt ∧
    (((ProcessMessage env lpMsg removeIfRequired w).mem.msg lpMsg).message
        = (w.mem.msg lpMsg).message ∨
      ((ProcessMessage env lpMsg removeIfRequired w).mem.msg lpMsg).message = WM_NULL) ∧
    (∀ other, other ≠ lpMsg →
      (ProcessMessage env lpMsg removeIfRequired w).mem.msg other = w.mem.msg other) ∧
    (ProcessMessage env lpMsg removeIfRequired w).mem.pad = w.mem.pad := by
  rw [ProcessMessage_mem]
  split_ifs
  · refine ⟨by simp, by simp, by simp, by simp, by simp, Or.inr (by simp), ?_, rfl⟩
    intro other hne
    simp [Function.update, hne]
  · exact ⟨rfl, rfl, rfl, rfl, rfl, Or.inl rfl, fun _ _ => rfl, rfl⟩

/-- C12 exercised on a neutralized key-down: the event after `ProcessMessage` is the key-down
with `WM_NULL` as its tag. -/
theorem C12_only_message_field_witness :
    (ProcessMessage (sampleEnv true true 1 keyDownEvent 0) 0x1000 true
      (worldWith keyDownEvent)).mem.msg 0x1000
      = ⟨0x5A0, WM_NULL, 0x41, 0x1E0001, 123456, ⟨640, 360⟩⟩ ∧
    ((ProcessMessage (sampleEnv true true 1 keyDownEvent 0) 0x1000 true
      (worldWith keyDownEvent)).mem.msg 0x1000).time = 123456 :=
  ⟨by decide,
   (C12_only_message_field_changes (sampleEnv true true 1 keyDownEvent 0) 0x1000 true
      (worldWith keyDownEvent)).2.2.2.1⟩

/-! ## C13 -/

theorem wmNull_not_handled : WM_NULL ≠ WM_INPUT ∧ WM_NULL ∉ caseLabels := by decide

/-- C13: idempotence of neutralization.  For every event, every `removeIfRequired` and every
fixed environment, memory after applying `ProcessMessage` twice is memory after applying it
once; and an event whose tag is already `WM_NULL` is left as it is. -/
theorem C13_process_message_idempotent
    (env : Env) (lpMsg : Nat) (removeIfRequired : Bool) (w : World) :
    (ProcessMessage env lpMsg removeIfRequired (ProcessMessage env lpMsg removeIfRequired w)).mem
      = (ProcessMessage env lpMsg removeIfRequired w).mem ∧
    ((ProcessMessage env lpMsg removeIfRequired
        (ProcessMessage env lpMsg removeIfRequired w)).mem.msg lpMsg)
      = (ProcessMessage env lpMsg removeIfRequired w).mem.msg lpMsg ∧
    ((w.mem.msg lpMsg).message = WM_NULL →
      (ProcessMessage env lpMsg removeIfRequired w).mem = w.mem) := by
  have hfix : ∀ v : World, (v.mem.msg lpMsg).message = WM_NULL →
      (ProcessMessage env lpMsg removeIfRequired v).mem = v.mem := by
    intro v hv
    rw [ProcessMessage_mem, HandleMessage_result]
    simp [hv, wmNull_not_handled.1, wmNull_not_handled.2]
  have hsame : ∀ v : World, (ProcessMessage env lpMsg removeIfRequired v).mem = v.mem →
      (ProcessMessage env lpMsg removeIfRequired
        (ProcessMessage env lpMsg removeIfRequired v)).mem
        = (ProcessMessage env lpMsg removeIfRequired v).mem := by
    intro v hv
    have h1 := ProcessMessage_mem env lpMsg removeIfRequired v
    have h2 := ProcessMessage_mem env lpMsg removeIfRequired
      (ProcessMessage env lpMsg removeIfRequired v)
    rw [HandleMessage_result] at h1 h2
    rw [hv] at h2
    exact h2.trans h1.symm
  have hidem : (ProcessMessage env lpMsg removeIfRequired
      (ProcessMessage env lpMsg removeIfRequired w)).mem
      = (ProcessMessage env lpMsg removeIfRequired w).mem := by
    by_cases hc : (ProcessMessage env lpMsg removeIfRequired w).mem = w.mem
    · exact hsame w hc
    · apply hfix
      have h1 := ProcessMessage_mem env lpMsg removeIfRequired w
      split_ifs at h1
      · rw [h1]; simp
      · exact absurd h1 hc
  exact ⟨hidem, by rw [hidem], hfix w⟩

/-- C13 at a concrete input: an event for window `0x5A0` already tagged `WM_NULL`, camera
enabled, blocking on, being removed. -/
theorem C13_process_message_witness :
    (ProcessMessage (sampleEnv true true 1 keyDownEvent 0) 0x1000 true
      (worldWith inertEvent)).mem.msg 0x1000 = inertEvent :=
  congrArg (fun m => m.msg 0x1000)
    ((C13_process_message_idempotent (sampleEnv true true 1 keyDownEvent 0) 0x1000 true
      (worldWith inertEvent)).2.2 (by decide))

/-! ## C14 -/

/-- C14: camera disabled end to end.  When `IsCameraEnabled()` is false, for `DetourGetMessageA`
and `DetourGetMessageW`, for either value of `g_inputBlocked` and every event the original
writes with a non-zero result, the detour returns `TRUE` and the event handed back (all of
memory) is what the original wrote. -/
theorem C14_camera_disabled_end_to_end
    (env : Env) (lpMsg hWnd wMsgFilterMin wMsgFilterMax : Nat) (w : World)
    (hcam : env.IsCameraEnabled = false) :
    (∀ orig, orig = env.hookedGetMessageA lpMsg hWnd wMsgFilterMin wMsgFilterMax w.mem →
      orig.1 ≠ 0 →
      (DetourGetMessageA env lpMsg hWnd wMsgFilterMin wMsgFilterMax w).1 = TRUE ∧
      (DetourGetMessageA env lpMsg hWnd wMsgFilterMin wMsgFilterMax w).2.mem.msg lpMsg
        = orig.2.msg lpMsg ∧
      (DetourGetMessageA env lpMsg hWnd wMsgFilterMin wMsgFilterMax w).2.mem = orig.2) ∧
    (∀ orig, orig = env.hookedGetMessageW lpMsg hWnd wMsgFilterMin wMsgFilterMax w.mem →
      orig.1 ≠ 0 →
      (DetourGetMessageW env lpMsg hWnd wMsgFilterMin wMsgFilterMax w).1 = TRUE ∧
      (DetourGetMessageW env lpMsg hWnd wMsgFilterMin wMsgFilterMax w).2.mem.msg lpMsg
        = orig.2.msg lpMsg ∧
      (DetourGetMessageW env lpMsg hWnd wMsgFilterMin wMsgFilterMax w).2.mem = orig.2) := by
  have hpm : ∀ (r : Bool) (v : World), (ProcessMessage env lpMsg r v).mem = v.mem := by
    intro r v
    rw [ProcessMessage_mem, HandleMessage_result]
    simp [hcam]
  constructor
  · intro orig horig hret
    subst horig
    simp [DetourGetMessageA, World.call, hret, hpm]
  · intro orig horig hret
    subst horig
    simp [DetourGetMessageW, World.call, hret, hpm]

/-- C14 at a concrete input: camera off, blocking on, the original delivers `keyDownEvent` and
returns 1. -/
theorem C14_camera_disabled_witness :
    ((DetourGetMessageA (sampleEnv true false 1 keyDownEvent 0) 0x1000 0 0 0
        (worldWith charEvent)).1 = 1 ∧
      (DetourGetMessageA (sampleEnv true false 1 keyDownEvent 0) 0x1000 0 0 0
        (worldWith charEvent)).2.mem.msg 0x1000 = keyDownEvent) ∧
    ((DetourGetMessageW (sampleEnv true false 1 keyDownEvent 0) 0x1000 0 0 0
        (worldWith charEvent)).1 = 1 ∧
      (DetourGetMessageW (sampleEnv true false 1 keyDownEvent 0) 0x1000 0 0 0
        (worldWith charEvent)).2.mem.msg 0x1000 = keyDownEvent) :=
  ⟨⟨((C14_camera_disabled_end_to_end (sampleEnv true false 1 keyDownEvent 0) 0x1000 0 0 0
        (worldWith charEvent) rfl).1 _ rfl (by decide)).1,
    ((C14_camera_disabled_end_to_end (sampleEnv true false 1 keyDownEvent 0) 0x1000 0 0 0
        (worldWith charEvent) rfl).1 _ rfl (by decide)).2.1⟩,
   ⟨((C14_camera_disabled_end_to_end (sampleEnv true false 1 keyDownEvent 0) 0x1000 0 0 0
        (worldWith charEvent) rfl).2 _ rfl (by decide)).1,
    ((C14_camera_disabled_end_to_end (sampleEnv true false 1 keyDownEvent 0) 0x1000 0 0 0
        (worldWith charEvent) rfl).2 _ rfl (by decide)).2.1⟩⟩

/-! ## C15 -/

/-- C15: the controller-state result code is passed through.  For every `dwUserIndex`, every
`pState` (the tool's own buffer or not), both values of `g_inputBlocked` and every value the
original returns, `DetourXInputGetState` returns that value; and memory differs from what the
original left at most in the state stored at `pState`. -/
theorem C15_xinput_result_passed_through
    (env : Env) (dwUserIndex pState : Nat) (w : World) :
    (DetourXInputGetState env dwUserIndex pState w).1
      = (env.hookedXInputGetState dwUserIndex pState w.mem).1 ∧
    (∀ other, other ≠ pState →
      (DetourXInputGetState env dwUserIndex pState w).2.mem.pad other
        = (env.hookedXInputGetState dwUserIndex pState w.mem).2.pad other) ∧
    (DetourXInputGetState env dwUserIndex pState w).2.mem.msg
      = (env.hookedXInputGetState dwUserIndex pState w.mem).2.msg := by
  unfold DetourXInputGetState
  dsimp only
  split_ifs
  · refine ⟨rfl, ?_, rfl⟩
    intro other hne
    simp [World.call, World.zeroState, Function.update, hne]
  · exact ⟨rfl, fun _ _ => rfl, rfl⟩
  · exact ⟨rfl, fun _ _ => rfl, rfl⟩

/-- C15 exercised with blocking on, the host buffer `0x2000` and an original that reports 1167
(`ERROR_DEVICE_NOT_CONNECTED`): 1167 is returned, and the state at `0x2004` is untouched. -/
theorem C15_xinput_result_witness :
    (DetourXInputGetState (sampleEnv true true 1 keyDownEvent 1167) 3 0x2000
      (worldWith charEvent)).1 = 1167 ∧
    (DetourXInputGetState (sampleEnv true true 1 keyDownEvent 1167) 3 0x2000
      (worldWith charEvent)).2.mem.pad 0x2004 = ⟨0, ⟨0, 0, 0, 0, 0, 0, 0⟩⟩ :=
  ⟨(C15_xinput_result_passed_through (sampleEnv true true 1 keyDownEvent 1167) 3 0x2000
      (worldWith charEvent)).1,
   (C15_xinput_result_passed_through (sampleEnv true true 1 keyDownEvent 1167) 3 0x2000
      (worldWith charEvent)).2.1 0x2004 (by decide)⟩

/-! ## C16 -/

/-- C16: no-event propagation.  For each of the four event-retrieval detours, when the saved
original returns 0 the detour returns `FALSE`, memory is what the original left, and the only
call the detour has added to the log is the call through the saved original, which is not an
entry into `ProcessMessage` or `HandleMessage`; this for every value of the two flags and of
`wRemoveMsg`. -/
theorem C16_no_event_is_propagated
    (env : Env) (lpMsg hWnd wMsgFilterMin wMsgFilterMax wRemoveMsg : Nat) (w : World) :
    ((env.hookedGetMessageA lpMsg hWnd wMsgFilterMin wMsgFilterMax w.mem).1 = 0 →
      (DetourGetMessageA env lpMsg hWnd wMsgFilterMin wMsgFilterMax w).1 = FALSE ∧
      (DetourGetMessageA env lpMsg hWnd wMsgFilterMin wMsgFilterMax w).2.mem
        = (env.hookedGetMessageA lpMsg hWnd wMsgFilterMin wMsgFilterMax w.mem).2 ∧
      (DetourGetMessageA env lpMsg hWnd wMsgFilterMin wMsgFilterMax w).2.log
        = w.log ++ [Call.hookedGetMessageA lpMsg hWnd wMsgFilterMin wMsgFilterMax] ∧
      (Call.hookedGetMessageA lpMsg hWnd wMsgFilterMin wMsgFilterMax).isPolicy = false) ∧
    ((env.hookedGetMessageW lpMsg hWnd wMsgFilterMin wMsgFilterMax w.mem).1 = 0 →
      (DetourGetMessageW env lpMsg hWnd wMsgFilterMin wMsgFilterMax w).1 = FALSE ∧
      (DetourGetMessageW env lpMsg hWnd wMsgFilterMin wMsgFilterMax w).2.mem
        = (env.hookedGetMessageW lpMsg hWnd wMsgFilterMin wMsgFilterMax w.mem).2 ∧
      (DetourGetMessageW env lpMsg hWnd wMsgFilterMin wMsgFilterMax w).2.log
        = w.log ++ [Call.hookedGetMessageW lpMsg hWnd wMsgFilterMin wMsgFilterMax] ∧
      (Call.hookedGetMessageW lpMsg hWnd wMsgFilterMin wMsgFilterMax).isPolicy = false) ∧
    ((env.hookedPeekMessageA lpMsg hWnd wMsgFilterMin wMsgFilterMax wRemoveMsg w.mem).1 = 0 →
      (DetourPeekMessageA env lpMsg hWnd wMsgFilterMin wMsgFilterMax wRemoveMsg w).1 = FALSE ∧
      (DetourPeekMessageA env lpMsg hWnd wMsgFilterMin wMsgFilterMax wRemoveMsg w).2.mem
        = (env.hookedPeekMessageA lpMsg hWnd wMsgFilterMin wMsgFilterMax wRemoveMsg w.mem).2 ∧
      (DetourPeekMessageA env lpMsg hWnd wMsgFilterMin wMsgFilterMax wRemoveMsg w).2.log
        = w.log ++ [Call.hookedPeekMessageA lpMsg hWnd wMsgFilterMin wMsgFilterMax wRemoveMsg] ∧
      (Call.hookedPeekMessageA lpMsg hWnd wMsgFilterMin wMsgFilterMax wRemoveMsg).isPolicy
        = false) ∧
    ((env.hookedPeekMessageW lpMsg hWnd wMsgFilterMin wMsgFilterMax wRemoveMsg w.mem).1 = 0 →
      (DetourPeekMessageW env lpMsg hWnd wMsgFilterMin wMsgFilterMax wRemoveMsg w).1 = FALSE ∧
      (DetourPeekMessageW env lpMsg hWnd wMsgFilterMin wMsgFilterMax wRemoveMsg w).2.mem
        = (env.hookedPeekMessageW lpMsg hWnd wMsgFilterMin wMsgFilterMax wRemoveMsg w.mem).2 ∧
      (DetourPeekMessageW env lpMsg hWnd wMsgFilterMin wMsgFilterMax wRemoveMsg w).2.log
        = w.log ++ [Call.hookedPeekMessageW lpMsg hWnd wMsgFilterMin wMsgFilterMax wRemoveMsg] ∧
      (Call.hookedPeekMessageW lpMsg hWnd wMsgFilterMin wMsgFilterMax wRemoveMsg).isPolicy
        = false) := by
  refine ⟨?_, ?_, ?_, ?_⟩
  · intro h
    simp [DetourGetMessageA, World.call, h, Call.isPolicy]
  · intro h
    simp [DetourGetMessageW, World.call, h, Call.isPolicy]
  · intro h
    simp [DetourPeekMessageA, World.call, h, Call.isPolicy]
  · intro h
    simp [DetourPeekMessageW, World.call, h, Call.isPolicy]

/-- C16 at a concrete input: camera enabled, blocking on, `PM_REMOVE`, and an original that
returns 0: `FALSE` comes back and the log holds the single call through the original. -/
theorem C16_no_event_witness :
    (DetourPeekMessageA (sampleEnv true true 0 keyDownEvent 0) 0x1000 0 0 0 PM_REMOVE
      (worldWith charEvent)).1 = 0 ∧
    (DetourPeekMessageA (sampleEnv true true 0 keyDownEvent 0) 0x1000 0 0 0 PM_REMOVE
      (worldWith charEvent)).2.log = [Call.hookedPeekMessageA 0x1000 0 0 0 PM_REMOVE] ∧
    (DetourGetMessageW (sampleEnv true true 0 keyDownEvent 0) 0x1000 0 0 0
      (worldWith charEvent)).2.log = [Call.hookedGetMessageW 0x1000 0 0 0] :=
  ⟨((C16_no_event_is_propagated (sampleEnv true true 0 keyDownEvent 0) 0x1000 0 0 0 PM_REMOVE
      (worldWith charEvent)).2.2.1 rfl).1,
   ((C16_no_event_is_propagated (sampleEnv true true 0 keyDownEvent 0) 0x1000 0 0 0 PM_REMOVE
      (worldWith charEvent)).2.2.1 rfl).2.2.1,
   ((C16_no_event_is_propagated (sampleEnv true true 0 keyDownEvent 0) 0x1000 0 0 0 PM_REMOVE
      (worldWith charEvent)).2.1 rfl).2.2.1⟩

/-! ## C17 -/

/-- C17: null window and null event pass through.  `HandleMessage` returns false when `lpMsg` is
null or `lpMsg->hwnd` is null, for every tag and flag value; and `ProcessMessage` leaves memory
(so an event whose `hwnd` is null) as it was, for every tag, every `removeIfRequired` and both
values of each flag. -/
theorem C17_null_window_passes_through
    (env : Env) (lpMsg : Nat) (removeIfRequired : Bool) (w : World) :
    (lpMsg = 0 → (HandleMessage env lpMsg w).1 = false) ∧
    ((w.mem.msg lpMsg).hwnd = 0 → (HandleMessage env lpMsg w).1 = false) ∧
    ((w.mem.msg lpMsg).hwnd = 0 →
      (ProcessMessage env lpMsg removeIfRequired w).mem = w.mem ∧
      (ProcessMessage env lpMsg removeIfRequired w).mem.msg lpMsg = w.mem.msg lpMsg) := by
  refine ⟨?_, ?_, ?_⟩
  · intro h
    rw [HandleMessage_result]
    simp [h]
  · intro h
    rw [HandleMessage_result]
    simp [h]
  · intro h
    have hm : (ProcessMessage env lpMsg removeIfRequired w).mem = w.mem := by
      rw [ProcessMessage_mem]
      simp [h]
    exact ⟨hm, by rw [hm]⟩

/-- C17 at concrete inputs: a null `lpMsg`, and a key-down posted to the thread (null window)
with camera enabled, blocking on and the event being removed. -/
theorem C17_null_window_witness :
    (HandleMessage (sampleEnv true true 1 keyDownEvent 0) 0 (worldWith keyDownEvent)).1
      = false ∧
    (HandleMessage (sampleEnv true true 1 keyDownEvent 0) 0x1000
      (worldWith threadKeyDownEvent)).1 = false ∧
    (ProcessMessage (sampleEnv true true 1 keyDownEvent 0) 0x1000 true
      (worldWith threadKeyDownEvent)).mem.msg 0x1000 = threadKeyDownEvent :=
  ⟨(C17_null_window_passes_through (sampleEnv true true 1 keyDownEvent 0) 0 true
      (worldWith keyDownEvent)).1 rfl,
   (C17_null_window_passes_through (sampleEnv true true 1 keyDownEvent 0) 0x1000 true
      (worldWith threadKeyDownEvent)).2.1 rfl,
   ((C17_null_window_passes_through (sampleEnv true true 1 keyDownEvent 0) 0x1000 true
      (worldWith threadKeyDownEvent)).2.2 rfl).2⟩

/-! ## C18 -/

theorem sysKey_char_not_handled :
    ∀ tag ∈ [WM_SYSKEYDOWN, WM_SYSKEYUP, WM_CHAR], tag ≠ WM_INPUT ∧ tag ∉ caseLabels := by
  decide

/-- C20: keyboard suppression is incomplete.  For an event tagged `WM_SYSKEYDOWN`, `WM_SYSKEYUP`
or `WM_CHAR`, in every environment (so with the camera enabled, `g_inputBlocked` true and a
non-null window) `HandleMessage` returns false, and each detour that removes the event
(`DetourGetMessageA/W`, and `DetourPeekMessageA/W` for every `wRemoveMsg`, `PM_REMOVE` included)
hands it back with memory exactly as the saved original left it. -/
theorem C20_syskey_and_char_pass_through
    (env : Env) (lpMsg hWnd wMsgFilterMin wMsgFilterMax wRemoveMsg : Nat) (w : World) :
    ((w.mem.msg lpMsg).message ∈ [WM_SYSKEYDOWN, WM_SYSKEYUP, WM_CHAR] →
      (HandleMessage env lpMsg w).1 = false) ∧
    (∀ orig, orig = env.hookedGetMessageA lpMsg hWnd wMsgFilterMin wMsgFilterMax w.mem →
      (orig.2.msg lpMsg).message ∈ [WM_SYSKEYDOWN, WM_SYSKEYUP, WM_CHAR] →
      (DetourGetMessageA env lpMsg hWnd wMsgFilterMin wMsgFilterMax w).2.mem.msg lpMsg
        = orig.2.msg lpMsg ∧
      (DetourGetMessageA env lpMsg hWnd wMsgFilterMin wMsgFilterMax w).2.mem = orig.2) ∧
    (∀ orig, orig = env.hookedGetMessageW lpMsg hWnd wMsgFilterMin wMsgFilterMax w.mem →
      (orig.2.msg lpMsg).message ∈ [WM_SYSKEYDOWN, WM_SYSKEYUP, WM_CHAR] →
      (DetourGetMessageW env lpMsg hWnd wMsgFilterMin wMsgFilterMax w).2.mem.msg lpMsg
        = orig.2.msg lpMsg ∧
      (DetourGetMessageW env lpMsg hWnd wMsgFilterMin wMsgFilterMax w).2.mem = orig.2) ∧
    (∀ orig,
      orig = env.hookedPeekMessageA lpMsg hWnd wMsgFilterMin wMsgFilterMax wRemoveMsg w.mem →
      (orig.2.msg lpMsg).message ∈ [WM_SYSKEYDOWN, WM_SYSKEYUP, WM_CHAR] →
      (DetourPeekMessageA env lpMsg hWnd wMsgFilterMin wMsgFilterMax wRemoveMsg w).2.mem.msg
          lpMsg = orig.2.msg lpMsg ∧
      (DetourPeekMessageA env lpMsg hWnd wMsgFilterMin wMsgFilterMax wRemoveMsg w).2.mem
        = orig.2) ∧
    (∀ orig,
      orig = env.hookedPeekMessageW lpMsg hWnd wMsgFilterMin wMsgFilterMax wRemoveMsg w.mem →
      (orig.2.msg lpMsg).message ∈ [WM_SYSKEYDOWN, WM_SYSKEYUP, WM_CHAR] →
      (DetourPeekMessageW env lpMsg hWnd wMsgFilterMin wMsgFilterMax wRemoveMsg w).2.mem.msg
          lpMsg = orig.2.msg lpMsg ∧
      (DetourPeekMessageW env lpMsg hWnd wMsgFilterMin wMsgFilterMax wRemoveMsg w).2.mem
        = orig.2) := by
  have hh : ∀ v : World, (v.mem.msg lpMsg).message ∈ [WM_SYSKEYDOWN, WM_SYSKEYUP, WM_CHAR] →
      (HandleMessage env lpMsg v).1 = false := by
    intro v hv
    rw [HandleMessage_result]
    simp [(sysKey_char_not_handled _ hv).1, (sysKey_char_not_handled _ hv).2]
  have hpm : ∀ (r : Bool) (v : World),
      (v.mem.msg lpMsg).message ∈ [WM_SYSKEYDOWN, WM_SYSKEYUP, WM_CHAR] →
      (ProcessMessage env lpMsg r v).mem = v.mem := by
    intro r v hv
    rw [ProcessMessage_mem]
    simp [hh v hv]
  refine ⟨hh w, ?_, ?_, ?_, ?_⟩
  · intro orig horig htag
    subst horig
    have hm : (DetourGetMessageA env lpMsg hWnd wMsgFilterMin wMsgFilterMax w).2.mem
        = (env.hookedGetMessageA lpMsg hWnd wMsgFilterMin wMsgFilterMax w.mem).2 := by
      unfold DetourGetMessageA; dsimp only; split_ifs
      · rfl
      · exact hpm _ _ htag
    exact ⟨by rw [hm], hm⟩
  · intro orig horig htag
    subst horig
    have hm : (DetourGetMessageW env lpMsg hWnd wMsgFilterMin wMsgFilterMax w).2.mem
        = (env.hookedGetMessageW lpMsg hWnd wMsgFilterMin wMsgFilterMax w.mem).2 := by
      unfold DetourGetMessageW; dsimp only; split_ifs
      · rfl
      · exact hpm _ _ htag
    exact ⟨by rw [hm], hm⟩
  · intro orig horig htag
    subst horig
    have hm : (DetourPeekMessageA env lpMsg hWnd wMsgFilterMin wMsgFilterMax wRemoveMsg w).2.mem
        = (env.hookedPeekMessageA lpMsg hWnd wMsgFilterMin wMsgFilterMax wRemoveMsg
            w.mem).2 := by
      unfold DetourPeekMessageA; dsimp only; split_ifs
      · rfl
      · exact hpm _ _ htag
    exact ⟨by rw [hm], hm⟩
  · intro orig horig htag
    subst horig
    have hm : (DetourPeekMessageW env lpMsg hWnd wMsgFilterMin wMsgFilterMax wRemoveMsg w).2.mem
        = (env.hookedPeekMessageW lpMsg hWnd wMsgFilterMin wMsgFilterMax wRemoveMsg
            w.mem).2 := by
      unfold DetourPeekMessageW; dsimp only; split_ifs
      · rfl
      · exact hpm _ _ htag
    exact ⟨by rw [hm], hm⟩

/-- C20 at a concrete input: camera enabled, blocking on, an Alt key-down for window `0x5A0`;
`HandleMessage` says false, and `DetourGetMessageA` and `DetourPeekMessageW` with `PM_REMOVE`
return 1 and hand the event back as delivered. -/
theorem C20_syskey_witness :
    (sampleEnv true true 1 sysKeyDownEvent 0).IsCameraEnabled = true ∧
    (sampleEnv true true 1 sysKeyDownEvent 0).g_inputBlocked = true ∧
    sysKeyDownEvent.hwnd ≠ 0 ∧
    (HandleMessage (sampleEnv true true 1 sysKeyDownEvent 0) 0x1000
      (worldWith sysKeyDownEvent)).1 = false ∧
    (DetourGetMessageA (sampleEnv true true 1 sysKeyDownEvent 0) 0x1000 0 0 0
      (worldWith charEvent)).1 = 1 ∧
    (DetourGetMessageA (sampleEnv true true 1 sysKeyDownEvent 0) 0x1000 0 0 0
      (worldWith charEvent)).2.mem.msg 0x1000 = sysKeyDownEvent ∧
    (DetourPeekMessageW (sampleEnv true true 1 sysKeyDownEvent 0) 0x1000 0 0 0 PM_REMOVE
      (worldWith charEvent)).2.mem.msg 0x1000 = sysKeyDownEvent :=
  ⟨rfl, rfl, by decide,
   (C20_syskey_and_char_pass_through (sampleEnv true true 1 sysKeyDownEvent 0) 0x1000 0 0 0
      PM_REMOVE (worldWith sysKeyDownEvent)).1 (by decide),
   by decide,
   ((C20_syskey_and_char_pass_through (sampleEnv true true 1 sysKeyDownEvent 0) 0x1000 0 0 0
      PM_REMOVE (worldWith charEvent)).2.1 _ rfl (by decide)).1,
   ((C20_syskey_and_char_pass_through (sampleEnv true true 1 sysKeyDownEvent 0) 0x1000 0 0 0
      PM_REMOVE (worldWith charEvent)).2.2.2.2 _ rfl (by decide)).1⟩

end InputHooker
